import Mathlib

/-!
Socket examples: one-shot TCP (Q1, Q2), TCP chat (Q3), UDP request/reply (Q4, Q5).

A shallow embedding of the POSIX branch (`#else` of `#ifdef _WIN32`) of the eight
C programs under `src/`.  Bytes are natural numbers, a `char` buffer is a list
of bytes, and the C library string functions read a buffer up to its first NUL
byte (the end of the list is read as a NUL).  The answers of the operating
system (return values of `socket`, `bind`, `connect`, ..., the results of the
successive `recv` calls) and the bytes of the standard input are part of the
input of each program; a run is the list of its observable actions together
with the value returned by `main`.  The chat loops recurse on the script of
`recv` answers: when the script is used up the run ends waiting in `recv`.
-/

namespace SocketExamples

/-! ## Bytes, buffers and the C string functions -/

/-- The bytes of a C string literal (without the terminating NUL). -/
def bytes (s : String) : List Nat := s.toList.map Char.toNat

/-- The size of every message buffer: `#define BUFFER_SIZE 1024`. -/
def BUFFER_SIZE : Nat := 1024

/-- The port of every program: `#define PORT 8080`. -/
def PORT : Nat := 8080

/-- The C string stored at the start of a buffer: the bytes before the first NUL. -/
def cstr (buf : List Nat) : List Nat := buf.takeWhile (fun b => b != 0)

/-- The function `strlen(buf)`: the number of bytes before the first NUL. -/
def strlen : List Nat → Nat
  | [] => 0
  | b :: rest => if b = 0 then 0 else strlen rest + 1

/-- The call `strcspn(buf, "\n")`: the number of bytes before the first newline or NUL. -/
def strcspn_newline : List Nat → Nat
  | [] => 0
  | b :: rest => if b = 0 ∨ b = 10 then 0 else strcspn_newline rest + 1

/-- The function `strncmp(a, b, n)`: compares at most `n` bytes, stopping after a NUL. -/
def strncmp : List Nat → List Nat → Nat → Int
  | _, _, 0 => 0
  | a, b, n + 1 =>
    let ca := a.headD 0
    let cb := b.headD 0
    if ca ≠ cb then (ca : Int) - (cb : Int)
    else if ca = 0 then 0
    else strncmp a.tail b.tail n

/-- The sentinel test of the chat programs: `strncmp(msg, "exit", 4) == 0`. -/
def isSentinel (msg : List Nat) : Bool := strncmp msg (bytes "exit") 4 == 0

/-- A buffer of `BUFFER_SIZE` bytes holding the C string `s`, NUL-filled after it. -/
def bufferOf (s : List Nat) : List Nat :=
  (s ++ List.replicate BUFFER_SIZE 0).take BUFFER_SIZE

/-! ## Operating-system calls and traces -/

/-- What one call of `recv` gives back: the returned count (`0` for an orderly
close by the peer, negative for an error) and the bytes written to the buffer. -/
structure RecvResult where
  ret : Int
  data : List Nat
  deriving DecidableEq, Repr

/-- A socket address (`struct sockaddr_in`): IPv4 address and port. -/
structure SockAddr where
  addr : Nat
  port : Nat
  deriving DecidableEq, Repr

/-- What one call of `recvfrom` gives back: count, bytes written and source address. -/
structure RecvFromResult where
  ret : Int
  data : List Nat
  src : SockAddr
  deriving DecidableEq, Repr

/-- The observable actions of a program, in program order.  A `recv` carries the
answer of the operating system; `none` is a call that does not return. -/
inductive Event where
  | stdout (text : List Nat)
  | stderr (text : List Nat)
  | perror (msg : List Nat)
  | fgets
  | send (fd : Int) (payload : List Nat)
  | recv (fd : Int) (maxlen : Nat) (answer : Option RecvResult)
  | sendto (fd : Int) (payload : List Nat) (dest : SockAddr)
  | recvfrom (fd : Int) (maxlen : Nat) (answer : RecvFromResult)
  | close (fd : Int)
  deriving DecidableEq, Repr

/-- A run of `main`: the actions performed and the value returned by `main`
(`none` when the program is left waiting in a `recv` that does not return). -/
structure Run where
  trace : List Event
  result : Option Int
  deriving DecidableEq, Repr

/-- Overwrites the start of a buffer with the given bytes. -/
def store (buf : List Nat) (bs : List Nat) : List Nat := bs ++ buf.drop bs.length

/-- The bytes one call `fgets(_, size, stdin)` takes from the input: at most
`size - 1` of them, up to and including the first newline. -/
def fgetsTake : Nat → List Nat → List Nat
  | 0, _ => []
  | _, [] => []
  | n + 1, b :: rest => if b = 10 then [b] else b :: fgetsTake n rest

/-- The call `fgets(message, size, stdin)`: stores the bytes read followed by a NUL; at
end of input nothing is read and the buffer is left as it was.  Gives the buffer
and the input that remains. -/
def fgets (message : List Nat) (size : Nat) (stdin : List Nat) : List Nat × List Nat :=
  let line := fgetsTake (size - 1) stdin
  if line = [] then (message, stdin)
  else (store message (line ++ [0]), stdin.drop line.length)

/-- Lines 94-95 of `q3_client.c` (134-135 of `q3_server.c`):
`fgets(message, BUFFER_SIZE, stdin); message[strcspn(message, "\n")] = 0;`. -/
def readMessage (message stdin : List Nat) : List Nat × List Nat :=
  let (message, stdin) := fgets message BUFFER_SIZE stdin
  (message.set (strcspn_newline message) 0, stdin)

/-- The bytes handed to `send(sock, message, (int)strlen(message), 0)`. -/
def sendPayload (message : List Nat) : List Nat := message.take (strlen message)

/-- Lines 102-113 of `q3_client.c` (115-126 of `q3_server.c`) for a positive count:
`memset(buffer, 0, BUFFER_SIZE)`, the write by `recv` of at most `BUFFER_SIZE - 1`
bytes, then `buffer[valread] = 0`. -/
def recvBuffer (r : RecvResult) : List Nat :=
  (store (List.replicate BUFFER_SIZE 0) (r.data.take (BUFFER_SIZE - 1))).set r.ret.toNat 0

/-! ## Q3: the chat client (`Q3/q3_client.c`) -/

/-- The chat loop of `q3_client.c` (lines 91-119) on socket `sock`, against the
answers `recvs` of the successive `recv` calls, from the current contents of
`message` and of the standard input.  Gives the actions performed and whether
the loop was left (`false`: waiting in a `recv` that does not return). -/
def q3_client_loop (sock : Int) : List RecvResult → List Nat → List Nat → List Event × Bool
  | [], message, stdin =>
    let (message, _) := readMessage message stdin
    if strncmp message (bytes "exit") 4 = 0 then
      ([Event.stdout (bytes "You: "), Event.fgets, Event.send sock (sendPayload message)], true)
    else
      ([Event.stdout (bytes "You: "), Event.fgets, Event.send sock (sendPayload message),
        Event.recv sock (BUFFER_SIZE - 1) none], false)
  | r :: rs, message, stdin =>
    let (message, stdin) := readMessage message stdin
    if strncmp message (bytes "exit") 4 = 0 then
      ([Event.stdout (bytes "You: "), Event.fgets, Event.send sock (sendPayload message)], true)
    else if r.ret ≤ 0 then
      ([Event.stdout (bytes "You: "), Event.fgets, Event.send sock (sendPayload message),
        Event.recv sock (BUFFER_SIZE - 1) (some r),
        Event.stdout (bytes "Server disconnected.\n")], true)
    else if strncmp (recvBuffer r) (bytes "exit") 4 = 0 then
      ([Event.stdout (bytes "You: "), Event.fgets, Event.send sock (sendPayload message),
        Event.recv sock (BUFFER_SIZE - 1) (some r),
        Event.stdout (bytes "Server: " ++ cstr (recvBuffer r) ++ bytes "\n")], true)
    else
      let rest := q3_client_loop sock rs message stdin
      (Event.stdout (bytes "You: ") :: Event.fgets :: Event.send sock (sendPayload message) ::
        Event.recv sock (BUFFER_SIZE - 1) (some r) ::
        Event.stdout (bytes "Server: " ++ cstr (recvBuffer r) ++ bytes "\n") :: rest.1, rest.2)

/-- The answers of the operating system and the input of one run of `q3_client`:
the return values of `socket`, `inet_pton` and `connect`, what the array `message`
(not initialised by the program) holds at the start, the bytes of the standard
input, and the answers of the successive `recv` calls. -/
structure Q3ClientInput where
  socket_ret : Int
  inet_pton_ret : Int
  connect_ret : Int
  message0 : List Nat
  stdin : List Nat
  recvs : List RecvResult
  deriving DecidableEq, Repr

/-- The function `main` of `q3_client.c`. -/
def q3_client_main (i : Q3ClientInput) : Run :=
  let sock := i.socket_ret
  if sock < 0 then
    ⟨[Event.perror (bytes "Socket creation failed")], some (-1)⟩
  else if i.inet_pton_ret ≤ 0 then
    ⟨[Event.perror (bytes "Invalid address"), Event.close sock], some (-1)⟩
  else if i.connect_ret < 0 then
    ⟨[Event.perror (bytes "Connection failed"), Event.close sock], some (-1)⟩
  else
    let chat := q3_client_loop sock i.recvs i.message0 i.stdin
    if chat.2 then
      ⟨Event.stdout (bytes "Connected to server! Type 'exit' to end chat.\n") :: chat.1 ++
        [Event.close sock, Event.stdout (bytes "Chat ended.\n")], some 0⟩
    else
      ⟨Event.stdout (bytes "Connected to server! Type 'exit' to end chat.\n") :: chat.1, none⟩

/-! ## Q3: the chat server (`Q3/q3_server.c`) -/

/-- The chat loop of `q3_server.c` (lines 113-141) on the accepted socket. -/
def q3_server_loop (new_socket : Int) :
    List RecvResult → List Nat → List Nat → List Event × Bool
  | [], _, _ => ([Event.recv new_socket (BUFFER_SIZE - 1) none], false)
  | r :: rs, message, stdin =>
    if r.ret ≤ 0 then
      ([Event.recv new_socket (BUFFER_SIZE - 1) (some r),
        Event.stdout (bytes "Client disconnected.\n")], true)
    else if strncmp (recvBuffer r) (bytes "exit") 4 = 0 then
      ([Event.recv new_socket (BUFFER_SIZE - 1) (some r),
        Event.stdout (bytes "Client: " ++ cstr (recvBuffer r) ++ bytes "\n")], true)
    else
      let (message, stdin) := readMessage message stdin
      if strncmp message (bytes "exit") 4 = 0 then
        ([Event.recv new_socket (BUFFER_SIZE - 1) (some r),
          Event.stdout (bytes "Client: " ++ cstr (recvBuffer r) ++ bytes "\n"),
          Event.stdout (bytes "You: "), Event.fgets,
          Event.send new_socket (sendPayload message)], true)
      else
        let rest := q3_server_loop new_socket rs message stdin
        (Event.recv new_socket (BUFFER_SIZE - 1) (some r) ::
          Event.stdout (bytes "Client: " ++ cstr (recvBuffer r) ++ bytes "\n") ::
          Event.stdout (bytes "You: ") :: Event.fgets ::
          Event.send new_socket (sendPayload message) :: rest.1, rest.2)

/-- The answers of the operating system and the input of one run of `q3_server`:
the return values of `socket`, `bind`, `listen` and `accept`, what the array
`message` (not initialised by the program) holds at the start, the bytes of the
standard input, and the answers of the successive `recv` calls. -/
structure Q3ServerInput where
  socket_ret : Int
  bind_ret : Int
  listen_ret : Int
  accept_ret : Int
  message0 : List Nat
  stdin : List Nat
  recvs : List RecvResult
  deriving DecidableEq, Repr

/-- The function `main` of `q3_server.c`. -/
def q3_server_main (i : Q3ServerInput) : Run :=
  let server_fd := i.socket_ret
  let new_socket := i.accept_ret
  if server_fd < 0 then
    ⟨[Event.perror (bytes "Socket failed")], some 1⟩
  else if i.bind_ret < 0 then
    ⟨[Event.perror (bytes "Bind failed"), Event.close server_fd], some 1⟩
  else if i.listen_ret < 0 then
    ⟨[Event.perror (bytes "Listen failed"), Event.close server_fd], some 1⟩
  else if new_socket < 0 then
    ⟨[Event.stdout (bytes "Server listening on port 8080...\n"),
      Event.perror (bytes "Accept failed"), Event.close server_fd], some 1⟩
  else
    let chat := q3_server_loop new_socket i.recvs i.message0 i.stdin
    if chat.2 then
      ⟨Event.stdout (bytes "Server listening on port 8080...\n") ::
        Event.stdout (bytes "Client connected! Type 'exit' to end chat.\n") :: chat.1 ++
        [Event.close new_socket, Event.close server_fd,
          Event.stdout (bytes "Chat ended.\n")], some 0⟩
    else
      ⟨Event.stdout (bytes "Server listening on port 8080...\n") ::
        Event.stdout (bytes "Client connected! Type 'exit' to end chat.\n") :: chat.1, none⟩

/-! ## Q1 and Q2: one message over a stream (`Q1/q1_server.c`, `Q1/q1_client.c`, `Q2/q2_client.c`) -/

/-- The answers of the operating system in one run of `q1_server`. -/
structure Q1ServerInput where
  socket_ret : Int
  bind_ret : Int
  listen_ret : Int
  accept_ret : Int
  recv_result : RecvResult
  deriving DecidableEq, Repr

/-- The function `main` of `q1_server.c`; `buffer` is initialised with zeros. -/
def q1_server_main (i : Q1ServerInput) : Run :=
  let server_fd := i.socket_ret
  let new_socket := i.accept_ret
  if server_fd < 0 then
    ⟨[Event.perror (bytes "socket failed")], some 1⟩
  else if i.bind_ret < 0 then
    ⟨[Event.perror (bytes "bind failed"), Event.close server_fd], some 1⟩
  else if i.listen_ret < 0 then
    ⟨[Event.perror (bytes "listen failed"), Event.close server_fd], some 1⟩
  else if new_socket < 0 then
    ⟨[Event.stdout (bytes "Server listening on port 8080...\n"),
      Event.perror (bytes "accept failed"), Event.close server_fd], some 1⟩
  else if i.recv_result.ret ≤ 0 then
    ⟨[Event.stdout (bytes "Server listening on port 8080...\n"),
      Event.recv new_socket (1024 - 1) (some i.recv_result),
      Event.stderr (bytes "recv failed or connection closed\n"),
      Event.close new_socket, Event.close server_fd,
      Event.stdout (bytes "Connection closed.\n")], some 0⟩
  else
    ⟨[Event.stdout (bytes "Server listening on port 8080...\n"),
      Event.recv new_socket (1024 - 1) (some i.recv_result),
      Event.stdout (bytes "Received from client: " ++ cstr (recvBuffer i.recv_result) ++
        bytes "\n"),
      Event.close new_socket, Event.close server_fd,
      Event.stdout (bytes "Connection closed.\n")], some 0⟩

/-- The answers of the operating system in one run of `q1_client` or `q2_client`. -/
structure StreamClientInput where
  socket_ret : Int
  inet_pton_ret : Int
  connect_ret : Int
  send_ret : Int
  deriving DecidableEq, Repr

/-- The function `main` of `q1_client.c`. -/
def q1_client_main (i : StreamClientInput) : Run :=
  let sock := i.socket_ret
  if sock < 0 then
    ⟨[Event.perror (bytes "Socket creation error")], some 1⟩
  else if i.inet_pton_ret ≤ 0 then
    ⟨[Event.perror (bytes "Invalid address or not supported"), Event.close sock], some 1⟩
  else if i.connect_ret < 0 then
    ⟨[Event.perror (bytes "Connection Failed"), Event.close sock], some 1⟩
  else if i.send_ret = -1 then
    ⟨[Event.send sock (sendPayload (bytes "Hello from client!")),
      Event.perror (bytes "send failed"), Event.close sock], some 1⟩
  else
    ⟨[Event.send sock (sendPayload (bytes "Hello from client!")),
      Event.stdout (bytes "Message sent to server.\n"), Event.close sock], some 0⟩

/-- The function `main` of `q2_client.c`. -/
def q2_client_main (i : StreamClientInput) : Run :=
  let sock := i.socket_ret
  if sock < 0 then
    ⟨[Event.perror (bytes "Socket creation failed")], some (-1)⟩
  else if i.inet_pton_ret ≤ 0 then
    ⟨[Event.perror (bytes "Invalid address or not supported"), Event.close sock], some (-1)⟩
  else if i.connect_ret < 0 then
    ⟨[Event.perror (bytes "Connection failed"), Event.close sock], some (-1)⟩
  else if i.send_ret < 0 then
    ⟨[Event.send sock (sendPayload (bytes "Hello, world!")),
      Event.perror (bytes "send failed"), Event.close sock], some (-1)⟩
  else
    ⟨[Event.send sock (sendPayload (bytes "Hello, world!")),
      Event.stdout (bytes "Sent message: Hello, world!\n"), Event.close sock], some 0⟩

/-! ## Q4 and Q5: datagrams (`Q4/q4_server.c`, `Q4/q4_client.c`, `Q5/q5_client.c`) -/

/-- The address `127.0.0.1`, port `PORT`, that the datagram clients send to. -/
def loopback : SockAddr := ⟨2130706433, PORT⟩

/-- The buffer of `q4_server.c` (lines 80-95) and `q4_client.c` (lines 66-80) after
`recvfrom(sockfd, buffer, BUFFER_SIZE - 1, ...)` and `buffer[n] = 0`; the buffer
is not initialised, `buffer0` is what it holds before the call. -/
def recvfromBuffer (buffer0 : List Nat) (r : RecvFromResult) : List Nat :=
  (store buffer0 (r.data.take (BUFFER_SIZE - 1))).set r.ret.toNat 0

/-- The answers of the operating system in one run of `q4_server`. -/
structure Q4ServerInput where
  socket_ret : Int
  bind_ret : Int
  buffer0 : List Nat
  recvfrom_result : RecvFromResult
  deriving DecidableEq, Repr

/-- The function `main` of `q4_server.c`. -/
def q4_server_main (i : Q4ServerInput) : Run :=
  let sockfd := i.socket_ret
  if sockfd < 0 then
    ⟨[Event.perror (bytes "Socket creation failed")], some 1⟩
  else if i.bind_ret < 0 then
    ⟨[Event.perror (bytes "Bind failed"), Event.close sockfd], some 1⟩
  else
    let recv_len := i.recvfrom_result.ret
    let client_addr := i.recvfrom_result.src
    if recv_len < 0 then
      ⟨[Event.stdout (bytes "UDP Server listening on port 8080...\n"),
        Event.recvfrom sockfd (BUFFER_SIZE - 1) i.recvfrom_result,
        Event.perror (bytes "Receive failed"), Event.close sockfd], some 1⟩
    else
      let buffer := recvfromBuffer i.buffer0 i.recvfrom_result
      let reply := bytes "Message received by server"
      ⟨[Event.stdout (bytes "UDP Server listening on port 8080...\n"),
        Event.recvfrom sockfd (BUFFER_SIZE - 1) i.recvfrom_result,
        Event.stdout (bytes "Client says: " ++ cstr buffer ++ bytes "\n"),
        Event.sendto sockfd (sendPayload reply) client_addr,
        Event.stdout (bytes "Reply sent. Closing server.\n"),
        Event.close sockfd], some 0⟩

/-- The answers of the operating system in one run of `q4_client`. -/
structure Q4ClientInput where
  socket_ret : Int
  buffer0 : List Nat
  recvfrom_result : RecvFromResult
  deriving DecidableEq, Repr

/-- The function `main` of `q4_client.c`. -/
def q4_client_main (i : Q4ClientInput) : Run :=
  let sockfd := i.socket_ret
  if sockfd < 0 then
    ⟨[Event.perror (bytes "Socket creation failed")], some 1⟩
  else
    let message := bytes "Hello from UDP Client!"
    let n := i.recvfrom_result.ret
    if n < 0 then
      ⟨[Event.sendto sockfd (sendPayload message) loopback,
        Event.stdout (bytes "Message sent to server.\n"),
        Event.recvfrom sockfd (BUFFER_SIZE - 1) i.recvfrom_result,
        Event.perror (bytes "recvfrom failed"), Event.close sockfd], some 1⟩
    else
      let buffer := recvfromBuffer i.buffer0 i.recvfrom_result
      ⟨[Event.sendto sockfd (sendPayload message) loopback,
        Event.stdout (bytes "Message sent to server.\n"),
        Event.recvfrom sockfd (BUFFER_SIZE - 1) i.recvfrom_result,
        Event.stdout (bytes "Server reply: " ++ cstr buffer ++ bytes "\n"),
        Event.close sockfd], some 0⟩

/-- The answers of the operating system in one run of `q5_client`. -/
structure Q5ClientInput where
  socket_ret : Int
  deriving DecidableEq, Repr

/-- The function `main` of `q5_client.c`. -/
def q5_client_main (i : Q5ClientInput) : Run :=
  let sockfd := i.socket_ret
  if sockfd < 0 then
    ⟨[Event.perror (bytes "Socket creation failed")], some 1⟩
  else
    ⟨[Event.sendto sockfd (sendPayload (bytes "Hello, world!")) loopback,
      Event.stdout (bytes "Message sent to server: Hello, world!\n"),
      Event.close sockfd], some 0⟩

/-! ## The eight programs -/

/-- One of the eight programs of the repository together with the input of its run. -/
inductive Program where
  | q1_server (i : Q1ServerInput)
  | q1_client (i : StreamClientInput)
  | q2_client (i : StreamClientInput)
  | q3_server (i : Q3ServerInput)
  | q3_client (i : Q3ClientInput)
  | q4_server (i : Q4ServerInput)
  | q4_client (i : Q4ClientInput)
  | q5_client (i : Q5ClientInput)

/-- The run of `main` of a program. -/
def Program.run : Program → Run
  | Program.q1_server i => q1_server_main i
  | Program.q1_client i => q1_client_main i
  | Program.q2_client i => q2_client_main i
  | Program.q3_server i => q3_server_main i
  | Program.q3_client i => q3_client_main i
  | Program.q4_server i => q4_server_main i
  | Program.q4_client i => q4_client_main i
  | Program.q5_client i => q5_client_main i

/-- A call whose result the program examines reports a failure: `socket`, `bind`,
`listen`, `accept`, `connect` or `recvfrom` returns a negative value, `inet_pton`
does not return a positive value, or the `send` of `q1_client` / `q2_client`
returns -1. -/
def Program.checkedFailure : Program → Prop
  | Program.q1_server i =>
    i.socket_ret < 0 ∨ i.bind_ret < 0 ∨ i.listen_ret < 0 ∨ i.accept_ret < 0
  | Program.q1_client i =>
    i.socket_ret < 0 ∨ i.inet_pton_ret ≤ 0 ∨ i.connect_ret < 0 ∨ i.send_ret = -1
  | Program.q2_client i =>
    i.socket_ret < 0 ∨ i.inet_pton_ret ≤ 0 ∨ i.connect_ret < 0 ∨ i.send_ret = -1
  | Program.q3_server i =>
    i.socket_ret < 0 ∨ i.bind_ret < 0 ∨ i.listen_ret < 0 ∨ i.accept_ret < 0
  | Program.q3_client i =>
    i.socket_ret < 0 ∨ i.inet_pton_ret ≤ 0 ∨ i.connect_ret < 0
  | Program.q4_server i =>
    i.socket_ret < 0 ∨ i.bind_ret < 0 ∨ i.recvfrom_result.ret < 0
  | Program.q4_client i =>
    i.socket_ret < 0 ∨ i.recvfrom_result.ret < 0
  | Program.q5_client i =>
    i.socket_ret < 0

/-- The return values follow the POSIX convention for `send`: a count, or -1 on error. -/
def Program.sendPosix : Program → Prop
  | Program.q1_client i => -1 ≤ i.send_ret
  | Program.q2_client i => -1 ≤ i.send_ret
  | _ => True

/-! ## The two parties of a chat session and properties of traces -/

/-- A party of a chat session together with the input of its run: the
Initiator runs `q3_client`, the Responder runs `q3_server`. -/
inductive Party where
  | initiator (i : Q3ClientInput)
  | responder (i : Q3ServerInput)

/-- The run of `main` of a party. -/
def Party.run : Party → Run
  | Party.initiator i => q3_client_main i
  | Party.responder i => q3_server_main i

/-- The action is a `send` on a stream socket. -/
def Event.isSend : Event → Bool
  | Event.send _ _ => true
  | _ => false

/-- The action is a `recv` on a stream socket. -/
def Event.isRecv : Event → Bool
  | Event.recv _ _ _ => true
  | _ => false

/-- The action reads a line of the standard input. -/
def Event.isFgets : Event → Bool
  | Event.fgets => true
  | _ => false

/-- Every action of a trace, taken with the actions that follow it, satisfies `P`. -/
def EachSuffix (P : Event → List Event → Prop) : List Event → Prop
  | [] => True
  | e :: rest => P e rest ∧ EachSuffix P rest

/-- The sequence of `send` (`true`) and `recv` (`false`) operations of a trace. -/
def ioKinds : List Event → List Bool
  | [] => []
  | Event.send _ _ :: rest => true :: ioKinds rest
  | Event.recv _ _ _ :: rest => false :: ioKinds rest
  | Event.stdout _ :: rest => ioKinds rest
  | Event.stderr _ :: rest => ioKinds rest
  | Event.perror _ :: rest => ioKinds rest
  | Event.fgets :: rest => ioKinds rest
  | Event.sendto _ _ _ :: rest => ioKinds rest
  | Event.recvfrom _ _ _ :: rest => ioKinds rest
  | Event.close _ :: rest => ioKinds rest

/-- The sequence is `first, !first, first, ...`: it starts with `first` and
strictly alternates. -/
def alternatesFrom : Bool → List Bool → Bool
  | _, [] => true
  | first, k :: rest => k == first && alternatesFrom (!first) rest

/-- The action is a `close` of a socket. -/
def Event.isClose : Event → Bool
  | Event.close _ => true
  | _ => false

/-- The action writes to the standard error stream. -/
def Event.isStderr : Event → Bool
  | Event.stderr _ => true
  | Event.perror _ => true
  | _ => false

/-- The text that a trace writes to the standard output. -/
def stdoutText : List Event → List Nat
  | [] => []
  | Event.stdout text :: rest => text ++ stdoutText rest
  | Event.stderr _ :: rest => stdoutText rest
  | Event.perror _ :: rest => stdoutText rest
  | Event.fgets :: rest => stdoutText rest
  | Event.send _ _ :: rest => stdoutText rest
  | Event.recv _ _ _ :: rest => stdoutText rest
  | Event.sendto _ _ _ :: rest => stdoutText rest
  | Event.recvfrom _ _ _ :: rest => stdoutText rest
  | Event.close _ :: rest => stdoutText rest

/-- What an observer of the process sees of a run: the text on the standard
output, the reports on the standard error stream, and the exit code. -/
def Run.observable (r : Run) : List Nat × List Event × Option Int :=
  (stdoutText r.trace, r.trace.filter Event.isStderr, r.result)

/-- The same party and input, with the script of `recv` answers replaced. -/
def Party.withRecvs : Party → List RecvResult → Party
  | Party.initiator i, recvs => Party.initiator { i with recvs := recvs }
  | Party.responder i, recvs => Party.responder { i with recvs := recvs }

/-! ## Writes of the NUL terminator after a receive -/

/-- One write `buffer[count] = 0` after a receive: the declared size of the
array `buffer`, the maximum that was requested from `recv` / `recvfrom`, and
the index written, which is the count that the call returned. -/
structure NulWrite where
  size : Nat
  requested : Nat
  index : Int
  deriving DecidableEq, Repr

/-- The terminator writes `buffer[valread] = 0` (line 113 of `q3_client.c`) of the
chat loop of the client, in program order: the loop of lines 91-119 with the
same exits, where `buffer` is `char buffer[BUFFER_SIZE]` and the count comes
from `recv(sock, buffer, BUFFER_SIZE - 1, 0)`. -/
def q3_client_loop_writes : List RecvResult → List Nat → List Nat → List NulWrite
  | [], _, _ => []
  | r :: rs, message, stdin =>
    let (message, stdin) := readMessage message stdin
    if strncmp message (bytes "exit") 4 = 0 then []
    else if r.ret ≤ 0 then []
    else if strncmp (recvBuffer r) (bytes "exit") 4 = 0 then
      [⟨BUFFER_SIZE, BUFFER_SIZE - 1, r.ret⟩]
    else ⟨BUFFER_SIZE, BUFFER_SIZE - 1, r.ret⟩ :: q3_client_loop_writes rs message stdin

/-- The terminator writes `buffer[valread] = 0` (line 126 of `q3_server.c`) of the
chat loop of the server, in program order: the loop of lines 113-141 with the
same exits. -/
def q3_server_loop_writes : List RecvResult → List Nat → List Nat → List NulWrite
  | [], _, _ => []
  | r :: rs, message, stdin =>
    if r.ret ≤ 0 then []
    else if strncmp (recvBuffer r) (bytes "exit") 4 = 0 then
      [⟨BUFFER_SIZE, BUFFER_SIZE - 1, r.ret⟩]
    else
      let (message, stdin) := readMessage message stdin
      if strncmp message (bytes "exit") 4 = 0 then [⟨BUFFER_SIZE, BUFFER_SIZE - 1, r.ret⟩]
      else ⟨BUFFER_SIZE, BUFFER_SIZE - 1, r.ret⟩ :: q3_server_loop_writes rs message stdin

/-- The terminator writes after a receive that a run of a program performs:
`buffer[received] = 0` in `q1_server.c` (array of 1024 bytes, `sizeof(buffer) - 1`
requested, reached when `received > 0`), `buffer[valread] = 0` in the chat
programs (reached in the loop, after the setup has succeeded),
`buffer[recv_len] = 0` in `q4_server.c` and `buffer[n] = 0` in `q4_client.c`
(reached when the count is not negative).  The other programs do not receive. -/
def Program.nulWrites : Program → List NulWrite
  | Program.q1_server i =>
    if i.socket_ret < 0 ∨ i.bind_ret < 0 ∨ i.listen_ret < 0 ∨ i.accept_ret < 0 then []
    else if i.recv_result.ret ≤ 0 then []
    else [⟨1024, 1024 - 1, i.recv_result.ret⟩]
  | Program.q1_client _ => []
  | Program.q2_client _ => []
  | Program.q3_server i =>
    if i.socket_ret < 0 ∨ i.bind_ret < 0 ∨ i.listen_ret < 0 ∨ i.accept_ret < 0 then []
    else q3_server_loop_writes i.recvs i.message0 i.stdin
  | Program.q3_client i =>
    if i.socket_ret < 0 ∨ i.inet_pton_ret ≤ 0 ∨ i.connect_ret < 0 then []
    else q3_client_loop_writes i.recvs i.message0 i.stdin
  | Program.q4_server i =>
    if i.socket_ret < 0 ∨ i.bind_ret < 0 then []
    else if i.recvfrom_result.ret < 0 then []
    else [⟨BUFFER_SIZE, BUFFER_SIZE - 1, i.recvfrom_result.ret⟩]
  | Program.q4_client i =>
    if i.socket_ret < 0 then []
    else if i.recvfrom_result.ret < 0 then []
    else [⟨BUFFER_SIZE, BUFFER_SIZE - 1, i.recvfrom_result.ret⟩]
  | Program.q5_client _ => []

/-- The program is one of the two chat programs, `q3_client` or `q3_server`. -/
def Program.isChat : Program → Bool
  | Program.q3_client _ => true
  | Program.q3_server _ => true
  | _ => false

/-- The maximum requested and the count returned, for a `recv` or `recvfrom`
that has returned. -/
def Event.received : Event → Option (Nat × Int)
  | Event.recv _ maxlen (some r) => some (maxlen, r.ret)
  | Event.recvfrom _ maxlen r => some (maxlen, r.ret)
  | _ => none

/-- The contract of `recv` / `recvfrom` on the count: a negative value, or a
count between 0 and the requested maximum. -/
def Event.countWithinRequest (e : Event) : Bool :=
  match e.received with
  | some (maxlen, count) => decide (count ≤ (maxlen : Int))
  | none => true

/-! ## The sentinel test -/

lemma bytes_exit : bytes "exit" = [101, 120, 105, 116] := by decide

lemma cstr_nil : cstr [] = [] := rfl

lemma cstr_cons (b : Nat) (rest : List Nat) :
    cstr (b :: rest) = if b = 0 then [] else b :: cstr rest := by
  by_cases h : b = 0 <;> simp [cstr, List.takeWhile_cons, h]

/-- The sentinel test on any buffer is a comparison of the first four bytes of
the C string it holds. -/
lemma isSentinel_iff (buf : List Nat) :
    isSentinel buf = true ↔
      4 ≤ (cstr buf).length ∧ (cstr buf).take 4 = [101, 120, 105, 116] := by
  unfold isSentinel
  rw [bytes_exit]
  rcases buf with _ | ⟨a, _ | ⟨b, _ | ⟨c, _ | ⟨d, rest⟩⟩⟩⟩ <;>
    simp only [strncmp, cstr_cons, cstr_nil, List.headD, List.tail] <;>
    split_ifs <;> simp_all <;> omega

/-- C1: for a message held as a NUL-terminated string in a buffer, the sentinel
test `strncmp(msg, "exit", 4) == 0` holds exactly when the message has at least
four bytes and its first four bytes are `e`, `x`, `i`, `t`; `"exit"`, `"exited"`
and `"exiting now"` match, `"exi"`, `"Exit"`, `" exit"` and the empty message do
not. -/
theorem sentinel_test_compares_four_bytes :
    (∀ buf : List Nat,
        (strncmp buf (bytes "exit") 4 = 0 ↔
          4 ≤ (cstr buf).length ∧ (cstr buf).take 4 = bytes "exit")) ∧
      strncmp (bufferOf (bytes "exit")) (bytes "exit") 4 = 0 ∧
      strncmp (bufferOf (bytes "exited")) (bytes "exit") 4 = 0 ∧
      strncmp (bufferOf (bytes "exiting now")) (bytes "exit") 4 = 0 ∧
      strncmp (bufferOf (bytes "exi")) (bytes "exit") 4 ≠ 0 ∧
      strncmp (bufferOf (bytes "Exit")) (bytes "exit") 4 ≠ 0 ∧
      strncmp (bufferOf (bytes " exit")) (bytes "exit") 4 ≠ 0 ∧
      strncmp (bufferOf (bytes "")) (bytes "exit") 4 ≠ 0 := by
  refine ⟨fun buf => ?_, by decide, by decide, by decide, by decide, by decide, by decide,
    by decide⟩
  have h := isSentinel_iff buf
  rw [bytes_exit]
  rw [← h]
  simp [isSentinel, bytes_exit]

/-! ## Reasoning about the actions that follow an action of a trace -/

lemma eachSuffix_split {P : Event → List Event → Prop} :
    ∀ (pre t : List Event) (e : Event) (post : List Event),
      EachSuffix P t → t = pre ++ e :: post → P e post
  | [], t, e, post, h, ht => by
    subst ht
    exact h.1
  | _ :: pre, t, e, post, h, ht => by
    subst ht
    exact eachSuffix_split pre _ e post h.2 rfl

lemma eachSuffix_append {P : Event → List Event → Prop} (tail : List Event) :
    ∀ a : List Event, EachSuffix (fun e post => P e (post ++ tail)) a →
      EachSuffix P tail → EachSuffix P (a ++ tail)
  | [], _, ht => ht
  | _ :: a, ha, ht => ⟨ha.1, eachSuffix_append tail a ha.2 ht⟩

lemma eachSuffix_mono {P Q : Event → List Event → Prop}
    (hPQ : ∀ e post, P e post → Q e post) :
    ∀ t : List Event, EachSuffix P t → EachSuffix Q t
  | [], _ => trivial
  | x :: t, h => ⟨hPQ x t h.1, eachSuffix_mono hPQ t h.2⟩

/-! ## C strings held in buffers -/

lemma sendPayload_eq_cstr : ∀ message : List Nat, sendPayload message = cstr message
  | [] => rfl
  | b :: rest => by
    have ih := sendPayload_eq_cstr rest
    unfold sendPayload at ih ⊢
    by_cases h : b = 0
    · simp [strlen, cstr_cons, h]
    · simp [strlen, cstr_cons, h, ih]

lemma strncmp_cstr : ∀ (n : Nat) (a b : List Nat), strncmp (cstr a) b n = strncmp a b n
  | 0, _, _ => by simp [strncmp]
  | n + 1, [], b => by simp [cstr_nil]
  | n + 1, x :: rest, b => by
    by_cases hx : x = 0
    · subst hx
      simp [strncmp, cstr_cons]
    · have ih := strncmp_cstr n rest b.tail
      simp [strncmp, cstr_cons, hx, ih]

@[simp] lemma strncmp_sendPayload (message b : List Nat) (n : Nat) :
    strncmp (sendPayload message) b n = strncmp message b n := by
  rw [sendPayload_eq_cstr, strncmp_cstr]

/-! ## From the chat loop to `main` -/

/-- The actions of `q3_client` after the chat loop (lines 125-127). -/
lemma q3_client_main_after (i : Q3ClientInput) (T : Event → Prop) (L : Event → List Event)
    (hT : ∀ e, T e → e.isSend = true ∨ e.isRecv = true)
    (hloop : EachSuffix (fun e post => T e → post = L e ∧
        (q3_client_loop i.socket_ret i.recvs i.message0 i.stdin).2 = true)
      (q3_client_loop i.socket_ret i.recvs i.message0 i.stdin).1) :
    EachSuffix (fun e post => T e →
        post = L e ++ [Event.close i.socket_ret, Event.stdout (bytes "Chat ended.\n")] ∧
          (q3_client_main i).result = some 0)
      (q3_client_main i).trace := by
  have hno : ∀ e : Event, e.isSend = false → e.isRecv = false → ¬ T e := by
    intro e h1 h2 h
    rcases hT e h with h' | h' <;> simp_all
  by_cases h1 : i.socket_ret < 0
  · simp only [q3_client_main, h1, if_true]
    exact ⟨fun h => absurd h (hno _ rfl rfl), trivial⟩
  by_cases h2 : i.inet_pton_ret ≤ 0
  · simp only [q3_client_main, h1, h2, if_true, if_false]
    exact ⟨fun h => absurd h (hno _ rfl rfl), fun h => absurd h (hno _ rfl rfl), trivial⟩
  by_cases h3 : i.connect_ret < 0
  · simp only [q3_client_main, h1, h2, h3, if_true, if_false]
    exact ⟨fun h => absurd h (hno _ rfl rfl), fun h => absurd h (hno _ rfl rfl), trivial⟩
  by_cases h4 : (q3_client_loop i.socket_ret i.recvs i.message0 i.stdin).2 = true
  · simp only [q3_client_main, h1, h2, h3, h4, if_true, if_false]
    refine ⟨fun h => absurd h (hno _ rfl rfl), ?_⟩
    refine eachSuffix_append _ _ ?_
      ⟨fun h => absurd h (hno _ rfl rfl), fun h => absurd h (hno _ rfl rfl), trivial⟩
    refine eachSuffix_mono ?_ _ hloop
    intro e post h hTe
    exact ⟨by rw [(h hTe).1], trivial⟩
  · simp only [q3_client_main, h1, h2, h3, h4, if_true, if_false]
    refine ⟨fun h => absurd h (hno _ rfl rfl), ?_⟩
    refine eachSuffix_mono ?_ _ hloop
    intro e post h hTe
    exact absurd (h hTe).2 h4

/-- The actions of `q3_server` after the chat loop (lines 148-151). -/
lemma q3_server_main_after (i : Q3ServerInput) (T : Event → Prop) (L : Event → List Event)
    (hT : ∀ e, T e → e.isSend = true ∨ e.isRecv = true)
    (hloop : EachSuffix (fun e post => T e → post = L e ∧
        (q3_server_loop i.accept_ret i.recvs i.message0 i.stdin).2 = true)
      (q3_server_loop i.accept_ret i.recvs i.message0 i.stdin).1) :
    EachSuffix (fun e post => T e →
        post = L e ++ [Event.close i.accept_ret, Event.close i.socket_ret,
          Event.stdout (bytes "Chat ended.\n")] ∧
          (q3_server_main i).result = some 0)
      (q3_server_main i).trace := by
  have hno : ∀ e : Event, e.isSend = false → e.isRecv = false → ¬ T e := by
    intro e h1 h2 h
    rcases hT e h with h' | h' <;> simp_all
  by_cases h1 : i.socket_ret < 0
  · simp only [q3_server_main, h1, if_true]
    exact ⟨fun h => absurd h (hno _ rfl rfl), trivial⟩
  by_cases h2 : i.bind_ret < 0
  · simp only [q3_server_main, h1, h2, if_true, if_false]
    exact ⟨fun h => absurd h (hno _ rfl rfl), fun h => absurd h (hno _ rfl rfl), trivial⟩
  by_cases h3 : i.listen_ret < 0
  · simp only [q3_server_main, h1, h2, h3, if_true, if_false]
    exact ⟨fun h => absurd h (hno _ rfl rfl), fun h => absurd h (hno _ rfl rfl), trivial⟩
  by_cases h4 : i.accept_ret < 0
  · simp only [q3_server_main, h1, h2, h3, h4, if_true, if_false]
    exact ⟨fun h => absurd h (hno _ rfl rfl), fun h => absurd h (hno _ rfl rfl),
      fun h => absurd h (hno _ rfl rfl), trivial⟩
  by_cases h5 : (q3_server_loop i.accept_ret i.recvs i.message0 i.stdin).2 = true
  · simp only [q3_server_main, h1, h2, h3, h4, h5, if_true, if_false]
    refine ⟨fun h => absurd h (hno _ rfl rfl), fun h => absurd h (hno _ rfl rfl), ?_⟩
    refine eachSuffix_append _ _ ?_
      ⟨fun h => absurd h (hno _ rfl rfl), fun h => absurd h (hno _ rfl rfl),
        fun h => absurd h (hno _ rfl rfl), trivial⟩
    refine eachSuffix_mono ?_ _ hloop
    intro e post h hTe
    exact ⟨by rw [(h hTe).1], trivial⟩
  · simp only [q3_server_main, h1, h2, h3, h4, h5, if_true, if_false]
    refine ⟨fun h => absurd h (hno _ rfl rfl), fun h => absurd h (hno _ rfl rfl), ?_⟩
    refine eachSuffix_mono ?_ _ hloop
    intro e post h hTe
    exact absurd (h hTe).2 h5

/-! ## After a sentinel has been sent -/

/-- In the loop of the client a sentinel is only ever sent as the last action,
and the loop is then left. -/
lemma q3_client_loop_sent_sentinel_last (sock : Int) :
    ∀ (recvs : List RecvResult) (message stdin : List Nat),
      EachSuffix (fun e post => (∃ fd p, e = Event.send fd p ∧
        strncmp p (bytes "exit") 4 = 0) → post = [] ∧
          (q3_client_loop sock recvs message stdin).2 = true)
        (q3_client_loop sock recvs message stdin).1
  | [], message, stdin => by
    simp only [q3_client_loop]
    split_ifs with h <;> simp_all [EachSuffix]
  | r :: rs, message, stdin => by
    have ih := q3_client_loop_sent_sentinel_last sock rs (readMessage message stdin).1
      (readMessage message stdin).2
    simp only [q3_client_loop]
    split_ifs with h1 h2 h3 <;> simp_all [EachSuffix]

/-- In the loop of the server a sentinel is only ever sent as the last action,
and the loop is then left. -/
lemma q3_server_loop_sent_sentinel_last (new_socket : Int) :
    ∀ (recvs : List RecvResult) (message stdin : List Nat),
      EachSuffix (fun e post => (∃ fd p, e = Event.send fd p ∧
        strncmp p (bytes "exit") 4 = 0) → post = [] ∧
          (q3_server_loop new_socket recvs message stdin).2 = true)
        (q3_server_loop new_socket recvs message stdin).1
  | [], message, stdin => by
    simp [q3_server_loop, EachSuffix]
  | r :: rs, message, stdin => by
    have ih := q3_server_loop_sent_sentinel_last new_socket rs (readMessage message stdin).1
      (readMessage message stdin).2
    simp only [q3_server_loop]
    split_ifs with h1 h2 h3 <;> simp_all [EachSuffix]

/-- C2: when a party of the chat (client or server) has passed to `send` a message
that matches the sentinel, it attempts no further `send` and no further `recv`:
the actions that follow are only the release of the sockets and the final line,
and `main` returns 0. -/
theorem sent_sentinel_terminates (party : Party) (pre post : List Event) (fd : Int)
    (p : List Nat) (htrace : party.run.trace = pre ++ Event.send fd p :: post)
    (hsentinel : strncmp p (bytes "exit") 4 = 0) :
    (∀ e ∈ post, e.isSend = false ∧ e.isRecv = false) ∧ party.run.result = some 0 := by
  cases party with
  | initiator i =>
    have h := eachSuffix_split pre _ _ post
      (q3_client_main_after i
        (fun e => ∃ fd p, e = Event.send fd p ∧ strncmp p (bytes "exit") 4 = 0) (fun _ => [])
        (by rintro e ⟨fd, p, rfl, -⟩; exact Or.inl rfl)
        (q3_client_loop_sent_sentinel_last _ _ _ _)) htrace ⟨fd, p, rfl, hsentinel⟩
    refine ⟨?_, h.2⟩
    rw [h.1]
    simp [Event.isSend, Event.isRecv]
  | responder i =>
    have h := eachSuffix_split pre _ _ post
      (q3_server_main_after i
        (fun e => ∃ fd p, e = Event.send fd p ∧ strncmp p (bytes "exit") 4 = 0) (fun _ => [])
        (by rintro e ⟨fd, p, rfl, -⟩; exact Or.inl rfl)
        (q3_server_loop_sent_sentinel_last _ _ _ _)) htrace ⟨fd, p, rfl, hsentinel⟩
    refine ⟨?_, h.2⟩
    rw [h.1]
    simp [Event.isSend, Event.isRecv]

/-- Witness for `sent_sentinel_terminates`: the client whose first input line is `exit`. -/
theorem sent_sentinel_terminates_witness :
    (Party.initiator ⟨3, 1, 0, [], bytes "exit\n", []⟩).run.trace =
        [Event.stdout (bytes "Connected to server! Type 'exit' to end chat.\n"),
          Event.stdout (bytes "You: "), Event.fgets] ++
          Event.send 3 (bytes "exit") ::
            [Event.close 3, Event.stdout (bytes "Chat ended.\n")] ∧
      strncmp (bytes "exit") (bytes "exit") 4 = 0 ∧
      (∀ e ∈ [Event.close 3, Event.stdout (bytes "Chat ended.\n")],
        e.isSend = false ∧ e.isRecv = false) ∧
      (Party.initiator ⟨3, 1, 0, [], bytes "exit\n", []⟩).run.result = some 0 :=
  ⟨by decide, by decide,
    sent_sentinel_terminates (Party.initiator ⟨3, 1, 0, [], bytes "exit\n", []⟩)
      [Event.stdout (bytes "Connected to server! Type 'exit' to end chat.\n"),
        Event.stdout (bytes "You: "), Event.fgets]
      [Event.close 3, Event.stdout (bytes "Chat ended.\n")] 3 (bytes "exit")
      (by decide) (by decide)⟩

/-! ## After a sentinel has been received -/

/-- In the loop of the client, a received sentinel is followed by the line that
shows it and nothing else, and the loop is then left. -/
lemma q3_client_loop_received_sentinel_last (sock : Int) :
    ∀ (recvs : List RecvResult) (message stdin : List Nat),
      EachSuffix (fun e post => (∃ fd n r, e = Event.recv fd n (some r) ∧ 0 < r.ret ∧
        strncmp (recvBuffer r) (bytes "exit") 4 = 0) →
          post = (match e with
            | Event.recv _ _ (some r) =>
              [Event.stdout (bytes "Server: " ++ cstr (recvBuffer r) ++ bytes "\n")]
            | _ => []) ∧
          (q3_client_loop sock recvs message stdin).2 = true)
        (q3_client_loop sock recvs message stdin).1
  | [], message, stdin => by
    simp only [q3_client_loop]
    split_ifs with h <;> simp_all [EachSuffix]
  | r :: rs, message, stdin => by
    have ih := q3_client_loop_received_sentinel_last sock rs (readMessage message stdin).1
      (readMessage message stdin).2
    simp only [q3_client_loop]
    split_ifs with h1 h2 h3 <;> simp_all [EachSuffix]

/-- In the loop of the server, a received sentinel is followed by the line that
shows it and nothing else, and the loop is then left. -/
lemma q3_server_loop_received_sentinel_last (new_socket : Int) :
    ∀ (recvs : List RecvResult) (message stdin : List Nat),
      EachSuffix (fun e post => (∃ fd n r, e = Event.recv fd n (some r) ∧ 0 < r.ret ∧
        strncmp (recvBuffer r) (bytes "exit") 4 = 0) →
          post = (match e with
            | Event.recv _ _ (some r) =>
              [Event.stdout (bytes "Client: " ++ cstr (recvBuffer r) ++ bytes "\n")]
            | _ => []) ∧
          (q3_server_loop new_socket recvs message stdin).2 = true)
        (q3_server_loop new_socket recvs message stdin).1
  | [], message, stdin => by
    simp [q3_server_loop, EachSuffix]
  | r :: rs, message, stdin => by
    have ih := q3_server_loop_received_sentinel_last new_socket rs (readMessage message stdin).1
      (readMessage message stdin).2
    simp only [q3_server_loop]
    split_ifs with h1 h2 h3 <;> simp_all [EachSuffix]

/-- C3: when a `recv` of a party of the chat (client or server) returns a positive
count and the message then held in `buffer` matches the sentinel, the party
attempts no further `send`, no further `recv` and reads no further input line,
and `main` returns 0. -/
theorem received_sentinel_terminates (party : Party) (pre post : List Event) (fd : Int)
    (n : Nat) (r : RecvResult)
    (htrace : party.run.trace = pre ++ Event.recv fd n (some r) :: post)
    (hpos : 0 < r.ret) (hsentinel : strncmp (recvBuffer r) (bytes "exit") 4 = 0) :
    (∀ e ∈ post, e.isSend = false ∧ e.isRecv = false ∧ e.isFgets = false) ∧
      party.run.result = some 0 := by
  cases party with
  | initiator i =>
    have h := eachSuffix_split pre _ _ post
      (q3_client_main_after i _ _
        (by rintro e ⟨fd, n, r, rfl, -⟩; exact Or.inr rfl)
        (q3_client_loop_received_sentinel_last _ _ _ _)) htrace ⟨fd, n, r, rfl, hpos, hsentinel⟩
    refine ⟨?_, h.2⟩
    rw [h.1]
    simp [Event.isSend, Event.isRecv, Event.isFgets]
  | responder i =>
    have h := eachSuffix_split pre _ _ post
      (q3_server_main_after i _ _
        (by rintro e ⟨fd, n, r, rfl, -⟩; exact Or.inr rfl)
        (q3_server_loop_received_sentinel_last _ _ _ _)) htrace ⟨fd, n, r, rfl, hpos, hsentinel⟩
    refine ⟨?_, h.2⟩
    rw [h.1]
    simp [Event.isSend, Event.isRecv, Event.isFgets]

/-- Witness for `received_sentinel_terminates`: the server whose first `recv`
gives the six bytes `exited`. -/
theorem received_sentinel_terminates_witness :
    (Party.responder ⟨3, 0, 0, 4, [], bytes "hello\n", [⟨6, bytes "exited"⟩]⟩).run.trace =
        [Event.stdout (bytes "Server listening on port 8080...\n"),
          Event.stdout (bytes "Client connected! Type 'exit' to end chat.\n")] ++
          Event.recv 4 1023 (some ⟨6, bytes "exited"⟩) ::
            [Event.stdout (bytes "Client: exited\n"), Event.close 4, Event.close 3,
              Event.stdout (bytes "Chat ended.\n")] ∧
      (0 : Int) < (RecvResult.mk 6 (bytes "exited")).ret ∧
      strncmp (recvBuffer ⟨6, bytes "exited"⟩) (bytes "exit") 4 = 0 ∧
      (∀ e ∈ [Event.stdout (bytes "Client: exited\n"), Event.close 4, Event.close 3,
          Event.stdout (bytes "Chat ended.\n")],
        e.isSend = false ∧ e.isRecv = false ∧ e.isFgets = false) ∧
      (Party.responder ⟨3, 0, 0, 4, [], bytes "hello\n", [⟨6, bytes "exited"⟩]⟩).run.result =
        some 0 :=
  ⟨by decide, by decide, by decide,
    received_sentinel_terminates
      (Party.responder ⟨3, 0, 0, 4, [], bytes "hello\n", [⟨6, bytes "exited"⟩]⟩)
      [Event.stdout (bytes "Server listening on port 8080...\n"),
        Event.stdout (bytes "Client connected! Type 'exit' to end chat.\n")]
      [Event.stdout (bytes "Client: exited\n"), Event.close 4, Event.close 3,
        Event.stdout (bytes "Chat ended.\n")] 4 1023 ⟨6, bytes "exited"⟩
      (by decide) (by decide) (by decide)⟩

/-! ## Alternation of turns -/

lemma ioKinds_append : ∀ a b : List Event, ioKinds (a ++ b) = ioKinds a ++ ioKinds b
  | [], b => rfl
  | e :: a, b => by
    have ih := ioKinds_append a b
    cases e <;> simp [ioKinds, ih]

lemma ioKinds_count_true : ∀ t : List Event, (ioKinds t).count true = t.countP Event.isSend
  | [] => rfl
  | e :: t => by
    have ih := ioKinds_count_true t
    cases e <;> simp [ioKinds, Event.isSend, ih]

lemma ioKinds_count_false : ∀ t : List Event, (ioKinds t).count false = t.countP Event.isRecv
  | [] => rfl
  | e :: t => by
    have ih := ioKinds_count_false t
    cases e <;> simp [ioKinds, Event.isRecv, ih]

lemma alternatesFrom_chain : ∀ (l : List Bool) (first : Bool),
    alternatesFrom first l = true → List.Chain' (fun a b => a ≠ b) l
  | [], _, _ => List.chain'_nil
  | [_], _, _ => List.chain'_singleton _
  | a :: b :: rest, first, h => by
    simp only [alternatesFrom, Bool.and_eq_true, beq_iff_eq] at h
    refine List.chain'_cons.2 ⟨?_, alternatesFrom_chain (b :: rest) (!first) ?_⟩
    · rw [h.1, h.2.1]; cases first <;> simp
    · have h3 := h.2.2
      rw [Bool.not_not] at h3
      simp [alternatesFrom, h.2.1, h3]

lemma alternatesFrom_count : ∀ (l : List Bool) (first : Bool),
    alternatesFrom first l = true →
      l.count (!first) ≤ l.count first ∧ l.count first ≤ l.count (!first) + 1
  | [], _, _ => by simp
  | a :: rest, first, h => by
    simp only [alternatesFrom, Bool.and_eq_true, beq_iff_eq] at h
    have ih := alternatesFrom_count rest (!first) h.2
    rw [h.1]
    cases first <;> simp_all

lemma q3_client_loop_alternates (sock : Int) :
    ∀ (recvs : List RecvResult) (message stdin : List Nat),
      alternatesFrom true (ioKinds (q3_client_loop sock recvs message stdin).1) = true
  | [], message, stdin => by
    simp only [q3_client_loop]
    split_ifs with h <;> simp [ioKinds, alternatesFrom]
  | r :: rs, message, stdin => by
    have ih := q3_client_loop_alternates sock rs (readMessage message stdin).1
      (readMessage message stdin).2
    simp only [q3_client_loop]
    split_ifs with h1 h2 h3 <;> simp_all [ioKinds, alternatesFrom]

lemma q3_server_loop_alternates (new_socket : Int) :
    ∀ (recvs : List RecvResult) (message stdin : List Nat),
      alternatesFrom false (ioKinds (q3_server_loop new_socket recvs message stdin).1) = true
  | [], message, stdin => by
    simp [q3_server_loop, ioKinds, alternatesFrom]
  | r :: rs, message, stdin => by
    have ih := q3_server_loop_alternates new_socket rs (readMessage message stdin).1
      (readMessage message stdin).2
    simp only [q3_server_loop]
    split_ifs with h1 h2 h3 <;> simp_all [ioKinds, alternatesFrom]

lemma q3_client_main_alternates (i : Q3ClientInput) :
    alternatesFrom true (ioKinds (q3_client_main i).trace) = true := by
  have hloop := q3_client_loop_alternates i.socket_ret i.recvs i.message0 i.stdin
  by_cases h1 : i.socket_ret < 0
  · simp [q3_client_main, h1, ioKinds, alternatesFrom]
  by_cases h2 : i.inet_pton_ret ≤ 0
  · simp [q3_client_main, h1, h2, ioKinds, alternatesFrom]
  by_cases h3 : i.connect_ret < 0
  · simp [q3_client_main, h1, h2, h3, ioKinds, alternatesFrom]
  by_cases h4 : (q3_client_loop i.socket_ret i.recvs i.message0 i.stdin).2 = true
  · simp only [q3_client_main, h1, h2, h3, h4, if_true, if_false, ioKinds, ioKinds_append,
      List.append_nil]
    exact hloop
  · simp only [q3_client_main, h1, h2, h3, h4, if_true, if_false, ioKinds]
    exact hloop

lemma q3_server_main_alternates (i : Q3ServerInput) :
    alternatesFrom false (ioKinds (q3_server_main i).trace) = true := by
  have hloop := q3_server_loop_alternates i.accept_ret i.recvs i.message0 i.stdin
  by_cases h1 : i.socket_ret < 0
  · simp [q3_server_main, h1, ioKinds, alternatesFrom]
  by_cases h2 : i.bind_ret < 0
  · simp [q3_server_main, h1, h2, ioKinds, alternatesFrom]
  by_cases h3 : i.listen_ret < 0
  · simp [q3_server_main, h1, h2, h3, ioKinds, alternatesFrom]
  by_cases h4 : i.accept_ret < 0
  · simp [q3_server_main, h1, h2, h3, h4, ioKinds, alternatesFrom]
  by_cases h5 : (q3_server_loop i.accept_ret i.recvs i.message0 i.stdin).2 = true
  · simp only [q3_server_main, h1, h2, h3, h4, h5, if_true, if_false, ioKinds, ioKinds_append,
      List.append_nil]
    exact hloop
  · simp only [q3_server_main, h1, h2, h3, h4, h5, if_true, if_false, ioKinds]
    exact hloop

/-- C4: in every run the `send` and `recv` operations of the chat client start
with a `send` and strictly alternate, those of the chat server start with a
`recv` and strictly alternate; so no party performs two consecutive sends or
two consecutive receives, and the client's number of sends is its number of
receives or one more. -/
theorem turns_strictly_alternate (ic : Q3ClientInput) (js : Q3ServerInput) :
    alternatesFrom true (ioKinds (q3_client_main ic).trace) = true ∧
      alternatesFrom false (ioKinds (q3_server_main js).trace) = true ∧
      List.Chain' (fun a b => a ≠ b) (ioKinds (q3_client_main ic).trace) ∧
      List.Chain' (fun a b => a ≠ b) (ioKinds (q3_server_main js).trace) ∧
      (q3_client_main ic).trace.countP Event.isRecv ≤
        (q3_client_main ic).trace.countP Event.isSend ∧
      (q3_client_main ic).trace.countP Event.isSend ≤
        (q3_client_main ic).trace.countP Event.isRecv + 1 := by
  have hc := q3_client_main_alternates ic
  have hs := q3_server_main_alternates js
  have hn := alternatesFrom_count _ _ hc
  rw [ioKinds_count_true, Bool.not_true, ioKinds_count_false] at hn
  exact ⟨hc, hs, alternatesFrom_chain _ _ hc, alternatesFrom_chain _ _ hs, hn.1, hn.2⟩

/-! ## Release of the connection -/

lemma q3_client_loop_no_close (sock : Int) :
    ∀ (recvs : List RecvResult) (message stdin : List Nat),
      ∀ e ∈ (q3_client_loop sock recvs message stdin).1, e.isClose = false
  | [], message, stdin => by
    simp only [q3_client_loop]
    split_ifs with h <;> simp [Event.isClose]
  | r :: rs, message, stdin => by
    have ih := q3_client_loop_no_close sock rs (readMessage message stdin).1
      (readMessage message stdin).2
    simp only [q3_client_loop]
    split_ifs with h1 h2 h3 <;> simp_all [Event.isClose]

lemma q3_server_loop_no_close (new_socket : Int) :
    ∀ (recvs : List RecvResult) (message stdin : List Nat),
      ∀ e ∈ (q3_server_loop new_socket recvs message stdin).1, e.isClose = false
  | [], message, stdin => by
    simp [q3_server_loop, Event.isClose]
  | r :: rs, message, stdin => by
    have ih := q3_server_loop_no_close new_socket rs (readMessage message stdin).1
      (readMessage message stdin).2
    simp only [q3_server_loop]
    split_ifs with h1 h2 h3 <;> simp_all [Event.isClose]

lemma count_eq_zero_of_not_isClose (body : List Event) (fd : Int)
    (h : ∀ e ∈ body, e.isClose = false) : body.count (Event.close fd) = 0 := by
  rw [List.count_eq_zero]
  intro hmem
  have := h _ hmem
  simp [Event.isClose] at this

/-- The shape of the trace of a run that leaves the chat loop. -/
lemma release_shape (party : Party) (hleft : party.run.result = some 0) :
    match party with
    | Party.initiator i =>
      ∃ body, (q3_client_main i).trace =
          body ++ [Event.close i.socket_ret, Event.stdout (bytes "Chat ended.\n")] ∧
        (∀ e ∈ body, e.isClose = false) ∧
        (q3_client_main i).trace.count (Event.close i.socket_ret) = 1
    | Party.responder i =>
      ∃ body, (q3_server_main i).trace =
          body ++ [Event.close i.accept_ret, Event.close i.socket_ret,
            Event.stdout (bytes "Chat ended.\n")] ∧
        (∀ e ∈ body, e.isClose = false) ∧
        (i.accept_ret ≠ i.socket_ret →
          (q3_server_main i).trace.count (Event.close i.accept_ret) = 1) := by
  cases party with
  | initiator i =>
    have hloop := q3_client_loop_no_close i.socket_ret i.recvs i.message0 i.stdin
    simp only [Party.run] at hleft
    show ∃ body, _
    by_cases h1 : i.socket_ret < 0
    · simp [q3_client_main, h1] at hleft
    by_cases h2 : i.inet_pton_ret ≤ 0
    · simp [q3_client_main, h1, h2] at hleft
    by_cases h3 : i.connect_ret < 0
    · simp [q3_client_main, h1, h2, h3] at hleft
    by_cases h4 : (q3_client_loop i.socket_ret i.recvs i.message0 i.stdin).2 = true
    · have hbody : ∀ e ∈ Event.stdout (bytes "Connected to server! Type 'exit' to end chat.\n") ::
          (q3_client_loop i.socket_ret i.recvs i.message0 i.stdin).1, e.isClose = false := by
        intro e he
        rcases List.mem_cons.1 he with rfl | he
        · rfl
        · exact hloop e he
      refine ⟨_ :: (q3_client_loop i.socket_ret i.recvs i.message0 i.stdin).1, ?_, hbody, ?_⟩
      · simp only [q3_client_main, h1, h2, h3, h4, if_true, if_false, List.cons_append]
      · simp only [q3_client_main, h1, h2, h3, h4, if_true, if_false]
        rw [List.count_append, count_eq_zero_of_not_isClose _ _ hbody]
        simp
    · simp [q3_client_main, h1, h2, h3, h4] at hleft
  | responder i =>
    have hloop := q3_server_loop_no_close i.accept_ret i.recvs i.message0 i.stdin
    simp only [Party.run] at hleft
    show ∃ body, _
    by_cases h1 : i.socket_ret < 0
    · simp [q3_server_main, h1] at hleft
    by_cases h2 : i.bind_ret < 0
    · simp [q3_server_main, h1, h2] at hleft
    by_cases h3 : i.listen_ret < 0
    · simp [q3_server_main, h1, h2, h3] at hleft
    by_cases h4 : i.accept_ret < 0
    · simp [q3_server_main, h1, h2, h3, h4] at hleft
    by_cases h5 : (q3_server_loop i.accept_ret i.recvs i.message0 i.stdin).2 = true
    · have hbody : ∀ e ∈ Event.stdout (bytes "Server listening on port 8080...\n") ::
          Event.stdout (bytes "Client connected! Type 'exit' to end chat.\n") ::
          (q3_server_loop i.accept_ret i.recvs i.message0 i.stdin).1, e.isClose = false := by
        intro e he
        rcases List.mem_cons.1 he with rfl | he
        · rfl
        rcases List.mem_cons.1 he with rfl | he
        · rfl
        · exact hloop e he
      refine ⟨_ :: _ :: (q3_server_loop i.accept_ret i.recvs i.message0 i.stdin).1, ?_, hbody,
        ?_⟩
      · simp only [q3_server_main, h1, h2, h3, h4, h5, if_true, if_false, List.cons_append]
      · intro hne
        simp only [q3_server_main, h1, h2, h3, h4, h5, if_true, if_false]
        rw [List.count_append, count_eq_zero_of_not_isClose _ _ hbody]
        simp [hne]
    · simp [q3_server_main, h1, h2, h3, h4, h5] at hleft

lemma no_io_after_close (body tail : List Event)
    (hbody : ∀ e ∈ body, e.isClose = false)
    (htail : ∀ e ∈ tail, e.isSend = false ∧ e.isRecv = false) :
    ∀ (pre post : List Event) (fd : Int), body ++ tail = pre ++ Event.close fd :: post →
      ∀ e ∈ post, e.isSend = false ∧ e.isRecv = false := by
  intro pre post fd h e he
  rcases List.append_eq_append_iff.1 h with ⟨a, -, ha⟩ | ⟨c, hc, hc2⟩
  · exact htail e (by rw [ha]; simp [he])
  · cases c with
    | nil =>
      simp only [List.nil_append] at hc2
      exact htail e (by rw [← hc2]; simp [he])
    | cons x c =>
      simp only [List.cons_append, List.cons.injEq] at hc2
      have := hbody (Event.close fd) (by rw [hc, hc2.1]; simp)
      simp [Event.isClose] at this

lemma stdoutText_append : ∀ a b : List Event, stdoutText (a ++ b) = stdoutText a ++ stdoutText b
  | [], b => rfl
  | e :: a, b => by
    have ih := stdoutText_append a b
    cases e <;> simp [stdoutText, ih]

/-- In the client loop a `recv` that returns 0 and one that returns a negative
value lead to the same output. -/
lemma q3_client_loop_nonpositive_same (sock : Int) (r0 r1 : RecvResult)
    (h0 : r0.ret ≤ 0) (h1 : r1.ret ≤ 0) :
    ∀ (pre : List RecvResult) (message stdin : List Nat),
      stdoutText (q3_client_loop sock (pre ++ [r0]) message stdin).1 =
          stdoutText (q3_client_loop sock (pre ++ [r1]) message stdin).1 ∧
        (q3_client_loop sock (pre ++ [r0]) message stdin).1.filter Event.isStderr =
          (q3_client_loop sock (pre ++ [r1]) message stdin).1.filter Event.isStderr ∧
        (q3_client_loop sock (pre ++ [r0]) message stdin).2 =
          (q3_client_loop sock (pre ++ [r1]) message stdin).2
  | [], message, stdin => by
    simp only [List.nil_append, q3_client_loop]
    split_ifs with h <;> simp [stdoutText, Event.isStderr]
  | r :: rs, message, stdin => by
    have ih := q3_client_loop_nonpositive_same sock r0 r1 h0 h1 rs
      (readMessage message stdin).1 (readMessage message stdin).2
    simp only [List.cons_append, q3_client_loop]
    split_ifs with h1 h2 h3 <;> simp_all [stdoutText, Event.isStderr]

/-- In the server loop a `recv` that returns 0 and one that returns a negative
value lead to the same output. -/
lemma q3_server_loop_nonpositive_same (new_socket : Int) (r0 r1 : RecvResult)
    (h0 : r0.ret ≤ 0) (h1 : r1.ret ≤ 0) :
    ∀ (pre : List RecvResult) (message stdin : List Nat),
      stdoutText (q3_server_loop new_socket (pre ++ [r0]) message stdin).1 =
          stdoutText (q3_server_loop new_socket (pre ++ [r1]) message stdin).1 ∧
        (q3_server_loop new_socket (pre ++ [r0]) message stdin).1.filter Event.isStderr =
          (q3_server_loop new_socket (pre ++ [r1]) message stdin).1.filter Event.isStderr ∧
        (q3_server_loop new_socket (pre ++ [r0]) message stdin).2 =
          (q3_server_loop new_socket (pre ++ [r1]) message stdin).2
  | [], message, stdin => by
    simp [q3_server_loop, h0, h1, stdoutText, Event.isStderr]
  | r :: rs, message, stdin => by
    have ih := q3_server_loop_nonpositive_same new_socket r0 r1 h0 h1 rs
      (readMessage message stdin).1 (readMessage message stdin).2
    simp only [List.cons_append, q3_server_loop]
    split_ifs with h1 h2 h3 <;> simp_all [stdoutText, Event.isStderr]

/-- When the client loop is waiting in a `recv`, an answer that ends the session
adds one line to the output and the loop is left. -/
lemma q3_client_loop_last_recv (sock : Int) (r : RecvResult)
    (hterm : r.ret ≤ 0 ∨ strncmp (recvBuffer r) (bytes "exit") 4 = 0) :
    ∀ (pre : List RecvResult) (message stdin : List Nat),
      (q3_client_loop sock pre message stdin).2 = false →
        stdoutText (q3_client_loop sock (pre ++ [r]) message stdin).1 =
            stdoutText (q3_client_loop sock pre message stdin).1 ++
              (if r.ret ≤ 0 then bytes "Server disconnected.\n"
                else bytes "Server: " ++ cstr (recvBuffer r) ++ bytes "\n") ∧
          (q3_client_loop sock (pre ++ [r]) message stdin).2 = true
  | [], message, stdin => by
    simp only [List.nil_append, q3_client_loop]
    split_ifs with h1 h2 h3 <;> simp_all [stdoutText]
  | r' :: rs, message, stdin => by
    have ih := q3_client_loop_last_recv sock r hterm rs
      (readMessage message stdin).1 (readMessage message stdin).2
    simp only [List.cons_append, q3_client_loop]
    split_ifs with h1 h2 h3 h4 <;> simp_all [stdoutText]

/-- When the server loop is waiting in a `recv`, an answer that ends the session
adds one line to the output and the loop is left. -/
lemma q3_server_loop_last_recv (new_socket : Int) (r : RecvResult)
    (hterm : r.ret ≤ 0 ∨ strncmp (recvBuffer r) (bytes "exit") 4 = 0) :
    ∀ (pre : List RecvResult) (message stdin : List Nat),
      (q3_server_loop new_socket pre message stdin).2 = false →
        stdoutText (q3_server_loop new_socket (pre ++ [r]) message stdin).1 =
            stdoutText (q3_server_loop new_socket pre message stdin).1 ++
              (if r.ret ≤ 0 then bytes "Client disconnected.\n"
                else bytes "Client: " ++ cstr (recvBuffer r) ++ bytes "\n") ∧
          (q3_server_loop new_socket (pre ++ [r]) message stdin).2 = true
  | [], message, stdin => by
    simp only [List.nil_append, q3_server_loop]
    split_ifs with h1 h2 h3 <;> simp_all [stdoutText]
  | r' :: rs, message, stdin => by
    have ih := q3_server_loop_last_recv new_socket r hterm rs
      (readMessage message stdin).1 (readMessage message stdin).2
    simp only [List.cons_append, q3_server_loop]
    split_ifs with h1 h2 h3 h4 <;> simp_all [stdoutText]

lemma q3_client_main_nonpositive_same (i : Q3ClientInput) (pre : List RecvResult)
    (r0 r1 : RecvResult) (h0 : r0.ret ≤ 0) (h1 : r1.ret ≤ 0) :
    (q3_client_main { i with recvs := pre ++ [r0] }).observable =
      (q3_client_main { i with recvs := pre ++ [r1] }).observable := by
  obtain ⟨ht, he, hl⟩ :=
    q3_client_loop_nonpositive_same i.socket_ret r0 r1 h0 h1 pre i.message0 i.stdin
  by_cases c1 : i.socket_ret < 0
  · simp [q3_client_main, c1]
  by_cases c2 : i.inet_pton_ret ≤ 0
  · simp [q3_client_main, c1, c2]
  by_cases c3 : i.connect_ret < 0
  · simp [q3_client_main, c1, c2, c3]
  by_cases c4 : (q3_client_loop i.socket_ret (pre ++ [r1]) i.message0 i.stdin).2 = true
  · simp [q3_client_main, c1, c2, c3, c4, hl, Run.observable, stdoutText, stdoutText_append,
      ht, he, Event.isStderr]
  · simp [q3_client_main, c1, c2, c3, c4, hl, Run.observable, stdoutText, ht, he,
      Event.isStderr]

lemma q3_server_main_nonpositive_same (i : Q3ServerInput) (pre : List RecvResult)
    (r0 r1 : RecvResult) (h0 : r0.ret ≤ 0) (h1 : r1.ret ≤ 0) :
    (q3_server_main { i with recvs := pre ++ [r0] }).observable =
      (q3_server_main { i with recvs := pre ++ [r1] }).observable := by
  obtain ⟨ht, he, hl⟩ :=
    q3_server_loop_nonpositive_same i.accept_ret r0 r1 h0 h1 pre i.message0 i.stdin
  by_cases c1 : i.socket_ret < 0
  · simp [q3_server_main, c1]
  by_cases c2 : i.bind_ret < 0
  · simp [q3_server_main, c1, c2]
  by_cases c3 : i.listen_ret < 0
  · simp [q3_server_main, c1, c2, c3]
  by_cases c4 : i.accept_ret < 0
  · simp [q3_server_main, c1, c2, c3, c4]
  by_cases c5 : (q3_server_loop i.accept_ret (pre ++ [r1]) i.message0 i.stdin).2 = true
  · simp [q3_server_main, c1, c2, c3, c4, c5, hl, Run.observable, stdoutText,
      stdoutText_append, ht, he, Event.isStderr]
  · simp [q3_server_main, c1, c2, c3, c4, c5, hl, Run.observable, stdoutText, ht, he,
      Event.isStderr]

lemma q3_client_main_last_recv (i : Q3ClientInput) (pre : List RecvResult) (r : RecvResult)
    (hterm : r.ret ≤ 0 ∨ strncmp (recvBuffer r) (bytes "exit") 4 = 0)
    (hreach : (q3_client_main { i with recvs := pre }).result = none) :
    stdoutText (q3_client_main { i with recvs := pre ++ [r] }).trace =
        stdoutText (q3_client_main { i with recvs := pre }).trace ++
          ((if r.ret ≤ 0 then bytes "Server disconnected.\n"
            else bytes "Server: " ++ cstr (recvBuffer r) ++ bytes "\n") ++
            bytes "Chat ended.\n") ∧
      (q3_client_main { i with recvs := pre ++ [r] }).result = some 0 := by
  by_cases c1 : i.socket_ret < 0
  · simp [q3_client_main, c1] at hreach
  by_cases c2 : i.inet_pton_ret ≤ 0
  · simp [q3_client_main, c1, c2] at hreach
  by_cases c3 : i.connect_ret < 0
  · simp [q3_client_main, c1, c2, c3] at hreach
  by_cases c4 : (q3_client_loop i.socket_ret pre i.message0 i.stdin).2 = true
  · simp [q3_client_main, c1, c2, c3, c4] at hreach
  · obtain ⟨ht, hl⟩ := q3_client_loop_last_recv i.socket_ret r hterm pre i.message0 i.stdin
      (by simpa using c4)
    simp only [q3_client_main, c1, c2, c3, c4, hl, if_true, if_false, stdoutText,
      stdoutText_append, ht, List.append_assoc, List.append_nil, and_self]

lemma q3_server_main_last_recv (i : Q3ServerInput) (pre : List RecvResult) (r : RecvResult)
    (hterm : r.ret ≤ 0 ∨ strncmp (recvBuffer r) (bytes "exit") 4 = 0)
    (hreach : (q3_server_main { i with recvs := pre }).result = none) :
    stdoutText (q3_server_main { i with recvs := pre ++ [r] }).trace =
        stdoutText (q3_server_main { i with recvs := pre }).trace ++
          ((if r.ret ≤ 0 then bytes "Client disconnected.\n"
            else bytes "Client: " ++ cstr (recvBuffer r) ++ bytes "\n") ++
            bytes "Chat ended.\n") ∧
      (q3_server_main { i with recvs := pre ++ [r] }).result = some 0 := by
  by_cases c1 : i.socket_ret < 0
  · simp [q3_server_main, c1] at hreach
  by_cases c2 : i.bind_ret < 0
  · simp [q3_server_main, c1, c2] at hreach
  by_cases c3 : i.listen_ret < 0
  · simp [q3_server_main, c1, c2, c3] at hreach
  by_cases c4 : i.accept_ret < 0
  · simp [q3_server_main, c1, c2, c3, c4] at hreach
  by_cases c5 : (q3_server_loop i.accept_ret pre i.message0 i.stdin).2 = true
  · simp [q3_server_main, c1, c2, c3, c4, c5] at hreach
  · obtain ⟨ht, hl⟩ := q3_server_loop_last_recv i.accept_ret r hterm pre i.message0 i.stdin
      (by simpa using c5)
    simp only [q3_server_main, c1, c2, c3, c4, c5, hl, if_true, if_false, stdoutText,
      stdoutText_append, ht, List.append_assoc, List.append_nil, and_self]

lemma disconnected_line_ne_message_line (who c tail : List Nat) :
    who ++ bytes " disconnected.\n" ++ tail ≠ who ++ (bytes ": " ++ c ++ bytes "\n") ++ tail := by
  have h1 : bytes " disconnected.\n" = 32 :: bytes "disconnected.\n" := by decide
  have h2 : bytes ": " = [58, 32] := by decide
  rw [h1, h2]
  simp

lemma text_differs_of_last_recv (who : List Nat) (base : List Nat) (closed sentinel : RecvResult)
    (hclosed : closed.ret ≤ 0) (hpos : 0 < sentinel.ret) (a b : List Nat)
    (ha : a = base ++ ((if sentinel.ret ≤ 0 then who ++ bytes " disconnected.\n"
        else who ++ bytes ": " ++ cstr (recvBuffer sentinel) ++ bytes "\n") ++
          bytes "Chat ended.\n"))
    (hb : b = base ++ ((if closed.ret ≤ 0 then who ++ bytes " disconnected.\n"
        else who ++ bytes ": " ++ cstr (recvBuffer closed) ++ bytes "\n") ++
          bytes "Chat ended.\n")) : a ≠ b := by
  rw [ha, hb, if_pos hclosed, if_neg (not_le.2 hpos)]
  intro h
  have h' := List.append_cancel_left h
  refine disconnected_line_ne_message_line who (cstr (recvBuffer sentinel))
    (bytes "Chat ended.\n") ?_
  rw [h'.symm]
  simp [List.append_assoc]

lemma q3_client_main_result (i : Q3ClientInput) :
    (q3_client_main i).result =
      if i.socket_ret < 0 ∨ i.inet_pton_ret ≤ 0 ∨ i.connect_ret < 0 then some (-1)
      else if (q3_client_loop i.socket_ret i.recvs i.message0 i.stdin).2 = true then some 0
      else none := by
  by_cases c1 : i.socket_ret < 0
  · simp [q3_client_main, c1]
  by_cases c2 : i.inet_pton_ret ≤ 0
  · simp [q3_client_main, c1, c2]
  by_cases c3 : i.connect_ret < 0
  · simp [q3_client_main, c1, c2, c3]
  by_cases c4 : (q3_client_loop i.socket_ret i.recvs i.message0 i.stdin).2 = true
  · simp [q3_client_main, c1, c2, c3, c4]
  · simp [q3_client_main, c1, c2, c3, c4]

lemma q3_server_main_result (i : Q3ServerInput) :
    (q3_server_main i).result =
      if i.socket_ret < 0 ∨ i.bind_ret < 0 ∨ i.listen_ret < 0 ∨ i.accept_ret < 0 then some 1
      else if (q3_server_loop i.accept_ret i.recvs i.message0 i.stdin).2 = true then some 0
      else none := by
  by_cases c1 : i.socket_ret < 0
  · simp [q3_server_main, c1]
  by_cases c2 : i.bind_ret < 0
  · simp [q3_server_main, c1, c2]
  by_cases c3 : i.listen_ret < 0
  · simp [q3_server_main, c1, c2, c3]
  by_cases c4 : i.accept_ret < 0
  · simp [q3_server_main, c1, c2, c3, c4]
  by_cases c5 : (q3_server_loop i.accept_ret i.recvs i.message0 i.stdin).2 = true
  · simp [q3_server_main, c1, c2, c3, c4, c5]
  · simp [q3_server_main, c1, c2, c3, c4, c5]

/-- In the loop of the server, a `recv` that returns no byte (or an error) is
followed by the report of the disconnect and nothing else, and the loop is left. -/
lemma q3_server_loop_disconnect_last (new_socket : Int) :
    ∀ (recvs : List RecvResult) (message stdin : List Nat),
      EachSuffix (fun e post => (∃ fd n r, e = Event.recv fd n (some r) ∧ r.ret ≤ 0) →
          post = [Event.stdout (bytes "Client disconnected.\n")] ∧
          (q3_server_loop new_socket recvs message stdin).2 = true)
        (q3_server_loop new_socket recvs message stdin).1
  | [], message, stdin => by
    simp [q3_server_loop, EachSuffix]
  | r :: rs, message, stdin => by
    have ih := q3_server_loop_disconnect_last new_socket rs (readMessage message stdin).1
      (readMessage message stdin).2
    simp only [q3_server_loop]
    split_ifs with h1 h2 h3 <;> simp_all [EachSuffix]

/-- C8: whenever a `recv` of the chat server returns zero bytes (the client closed
the connection), what follows is exactly: the line `Client disconnected.`, the
release of both sockets and the line `Chat ended.`; so no `Client: ...` line is
printed for that `recv`, no further `send` or `recv` is attempted, and `main`
returns 0. -/
theorem responder_reports_peer_disconnect (i : Q3ServerInput) (pre post : List Event)
    (fd : Int) (n : Nat) (r : RecvResult)
    (htrace : (q3_server_main i).trace = pre ++ Event.recv fd n (some r) :: post)
    (hzero : r.ret = 0) :
    post = [Event.stdout (bytes "Client disconnected.\n"), Event.close i.accept_ret,
        Event.close i.socket_ret, Event.stdout (bytes "Chat ended.\n")] ∧
      (q3_server_main i).result = some 0 :=
  eachSuffix_split pre _ _ post
    (q3_server_main_after i (fun e => ∃ fd n r, e = Event.recv fd n (some r) ∧ r.ret ≤ 0)
      (fun _ => [Event.stdout (bytes "Client disconnected.\n")])
      (by rintro e ⟨fd, n, r, rfl, -⟩; exact Or.inr rfl)
      (q3_server_loop_disconnect_last _ _ _ _)) htrace ⟨fd, n, r, rfl, le_of_eq hzero⟩

/-- Witness for `responder_reports_peer_disconnect`: the server receives `hi`,
answers `yo`, and its next `recv` returns 0. -/
theorem responder_reports_peer_disconnect_witness :
    (q3_server_main ⟨3, 0, 0, 4, [], bytes "yo\n", [⟨2, bytes "hi"⟩, ⟨0, []⟩]⟩).trace =
        [Event.stdout (bytes "Server listening on port 8080...\n"),
          Event.stdout (bytes "Client connected! Type 'exit' to end chat.\n"),
          Event.recv 4 1023 (some ⟨2, bytes "hi"⟩), Event.stdout (bytes "Client: hi\n"),
          Event.stdout (bytes "You: "), Event.fgets, Event.send 4 (bytes "yo")] ++
          Event.recv 4 1023 (some ⟨0, []⟩) ::
            [Event.stdout (bytes "Client disconnected.\n"), Event.close 4, Event.close 3,
              Event.stdout (bytes "Chat ended.\n")] ∧
      (q3_server_main ⟨3, 0, 0, 4, [], bytes "yo\n", [⟨2, bytes "hi"⟩, ⟨0, []⟩]⟩).result =
        some 0 :=
  ⟨by decide,
    (responder_reports_peer_disconnect
      ⟨3, 0, 0, 4, [], bytes "yo\n", [⟨2, bytes "hi"⟩, ⟨0, []⟩]⟩
      [Event.stdout (bytes "Server listening on port 8080...\n"),
        Event.stdout (bytes "Client connected! Type 'exit' to end chat.\n"),
        Event.recv 4 1023 (some ⟨2, bytes "hi"⟩), Event.stdout (bytes "Client: hi\n"),
        Event.stdout (bytes "You: "), Event.fgets, Event.send 4 (bytes "yo")]
      [Event.stdout (bytes "Client disconnected.\n"), Event.close 4, Event.close 3,
        Event.stdout (bytes "Chat ended.\n")] 4 1023 ⟨0, []⟩ (by decide) (by decide)).2⟩

/-! ## The datagram replier -/

lemma cstr_set_length_append : ∀ (d buf : List Nat), cstr ((d ++ buf).set d.length 0) = cstr d
  | [], [] => rfl
  | [], b :: buf => by simp [cstr_cons, cstr_nil]
  | x :: d, buf => by
    have ih := cstr_set_length_append d buf
    simp only [List.cons_append, List.length_cons, List.set_cons_succ, cstr_cons, ih]

lemma cstr_recvfromBuffer (buffer0 : List Nat) (r : RecvFromResult)
    (hmax : r.ret ≤ 1023) (hlen : r.data.length = r.ret.toNat) :
    cstr (recvfromBuffer buffer0 r) = cstr r.data := by
  have hle : r.data.length ≤ BUFFER_SIZE - 1 := by
    have : r.ret.toNat ≤ 1023 := by omega
    rw [hlen]
    exact this
  unfold recvfromBuffer store
  rw [List.take_of_length_le hle, ← hlen]
  exact cstr_set_length_append _ _

/-- C10: when `socket` and `bind` succeed and `recvfrom` delivers a datagram (a
payload of 0 to 1023 bytes from any source address), `q4_server` performs exactly
one `recvfrom` and exactly one `sendto`, whose payload is the 26 bytes
`Message received by server` and whose destination is the source address of the
datagram, logs the text of the request, and returns 0; with the request
`Hello from UDP Client!` the logged line is `Client says: Hello from UDP Client!`. -/
theorem replier_replies_once (i : Q4ServerInput)
    (hsocket : 0 ≤ i.socket_ret) (hbind : 0 ≤ i.bind_ret)
    (hret : 0 ≤ i.recvfrom_result.ret) (hmax : i.recvfrom_result.ret ≤ 1023)
    (hlen : i.recvfrom_result.data.length = i.recvfrom_result.ret.toNat) :
    (q4_server_main i).trace =
        [Event.stdout (bytes "UDP Server listening on port 8080...\n"),
          Event.recvfrom i.socket_ret 1023 i.recvfrom_result,
          Event.stdout (bytes "Client says: " ++ cstr i.recvfrom_result.data ++ bytes "\n"),
          Event.sendto i.socket_ret (bytes "Message received by server") i.recvfrom_result.src,
          Event.stdout (bytes "Reply sent. Closing server.\n"),
          Event.close i.socket_ret] ∧
      (q4_server_main i).result = some 0 ∧
      (bytes "Message received by server").length = 26 ∧
      (i.recvfrom_result.data = bytes "Hello from UDP Client!" →
        (q4_server_main i).trace.get? 2 =
          some (Event.stdout (bytes "Client says: Hello from UDP Client!\n"))) := by
  have h1 : ¬ i.socket_ret < 0 := not_lt.2 hsocket
  have h2 : ¬ i.bind_ret < 0 := not_lt.2 hbind
  have h3 : ¬ i.recvfrom_result.ret < 0 := not_lt.2 hret
  have hreply : sendPayload (bytes "Message received by server") =
      bytes "Message received by server" := by decide
  have htrace : (q4_server_main i).trace =
      [Event.stdout (bytes "UDP Server listening on port 8080...\n"),
        Event.recvfrom i.socket_ret 1023 i.recvfrom_result,
        Event.stdout (bytes "Client says: " ++ cstr i.recvfrom_result.data ++ bytes "\n"),
        Event.sendto i.socket_ret (bytes "Message received by server") i.recvfrom_result.src,
        Event.stdout (bytes "Reply sent. Closing server.\n"),
        Event.close i.socket_ret] := by
    simp only [q4_server_main, h1, h2, h3, if_false, hreply,
      cstr_recvfromBuffer i.buffer0 i.recvfrom_result hmax hlen]
    rfl
  refine ⟨htrace, ?_, by decide, ?_⟩
  · simp only [q4_server_main, h1, h2, h3, if_false]
  · intro hdata
    have hlog : bytes "Client says: " ++ cstr (bytes "Hello from UDP Client!") ++ bytes "\n" =
        bytes "Client says: Hello from UDP Client!\n" := by decide
    rw [htrace, hdata, hlog]
    rfl

/-- Witness for `replier_replies_once`: the request `Hello from UDP Client!` from
address 127.0.0.1, port 40000. -/
theorem replier_replies_once_witness :
    (q4_server_main ⟨3, 0, [], ⟨22, bytes "Hello from UDP Client!", ⟨2130706433, 40000⟩⟩⟩).trace =
        [Event.stdout (bytes "UDP Server listening on port 8080...\n"),
          Event.recvfrom 3 1023 ⟨22, bytes "Hello from UDP Client!", ⟨2130706433, 40000⟩⟩,
          Event.stdout (bytes "Client says: " ++ cstr (bytes "Hello from UDP Client!") ++
            bytes "\n"),
          Event.sendto 3 (bytes "Message received by server") ⟨2130706433, 40000⟩,
          Event.stdout (bytes "Reply sent. Closing server.\n"),
          Event.close 3] :=
  (replier_replies_once ⟨3, 0, [], ⟨22, bytes "Hello from UDP Client!", ⟨2130706433, 40000⟩⟩⟩
    (by decide) (by decide) (by decide) (by decide) (by decide)).1

/-! ## Lines longer than the buffer -/

lemma fgetsTake_long : ∀ (n : Nat) (l rest : List Nat), (∀ b ∈ l, b ≠ 10) → n ≤ l.length →
    fgetsTake n (l ++ rest) = l.take n
  | 0, l, rest, _, _ => by simp [fgetsTake]
  | n + 1, [], rest, _, h => by simp at h
  | n + 1, x :: l, rest, hl, h => by
    have hx : x ≠ 10 := hl x (by simp)
    have ih := fgetsTake_long n l rest (fun b hb => hl b (by simp [hb]))
      (by simpa using h)
    simp [fgetsTake, hx, ih]

lemma fgetsTake_short : ∀ (l : List Nat) (n : Nat) (rest : List Nat), (∀ b ∈ l, b ≠ 10) →
    l.length < n → fgetsTake n (l ++ 10 :: rest) = l ++ [10]
  | _, 0, _, _, h => by simp at h
  | [], n + 1, rest, _, _ => by simp [fgetsTake]
  | x :: l, n + 1, rest, hl, h => by
    have hx : x ≠ 10 := hl x (by simp)
    have ih := fgetsTake_short l n rest (fun b hb => hl b (by simp [hb]))
      (by simpa using h)
    simp [fgetsTake, hx, ih]

lemma strcspn_newline_before : ∀ (l : List Nat) (c : Nat) (rest : List Nat),
    (∀ b ∈ l, b ≠ 0 ∧ b ≠ 10) → (c = 0 ∨ c = 10) → strcspn_newline (l ++ c :: rest) = l.length
  | [], c, rest, _, hc => by simp [strcspn_newline, hc]
  | x :: l, c, rest, hl, hc => by
    have hx := hl x (by simp)
    have ih := strcspn_newline_before l c rest (fun b hb => hl b (by simp [hb])) hc
    simp [strcspn_newline, hx.1, hx.2, ih]

lemma strlen_before : ∀ (l : List Nat) (rest : List Nat),
    (∀ b ∈ l, b ≠ 0 ∧ b ≠ 10) → strlen (l ++ 0 :: rest) = l.length
  | [], rest, _ => by simp [strlen]
  | x :: l, rest, hl => by
    have hx := hl x (by simp)
    have ih := strlen_before l rest (fun b hb => hl b (by simp [hb]))
    simp [strlen, hx.1, ih]

lemma set_length_append : ∀ (l : List Nat) (c : Nat) (rest : List Nat),
    (l ++ c :: rest).set l.length 0 = l ++ 0 :: rest
  | [], c, rest => rfl
  | x :: l, c, rest => by
    have ih := set_length_append l c rest
    simp only [List.cons_append, List.length_cons, List.set_cons_succ, ih]

/-- The bytes sent after `message[strcspn(message, "\n")] = 0` when the buffer
holds `l`, free of NUL and newline, followed by a NUL or a newline. -/
lemma sendPayload_strip (l : List Nat) (c : Nat) (rest : List Nat)
    (hl : ∀ b ∈ l, b ≠ 0 ∧ b ≠ 10) (hc : c = 0 ∨ c = 10) :
    sendPayload ((l ++ c :: rest).set (strcspn_newline (l ++ c :: rest)) 0) = l := by
  rw [strcspn_newline_before l c rest hl hc, set_length_append]
  unfold sendPayload
  rw [strlen_before l rest hl]
  simp

/-- A turn whose input holds at least `BUFFER_SIZE - 1` bytes before the next
newline: exactly those first bytes are sent, the others stay in the input. -/
lemma turn_of_long_input (message l stdin : List Nat) (hl : ∀ b ∈ l, b ≠ 0 ∧ b ≠ 10)
    (hlen : l.length = 1023) :
    sendPayload (readMessage message (l ++ stdin)).1 = l ∧
      (readMessage message (l ++ stdin)).2 = stdin := by
  have htake : fgetsTake (BUFFER_SIZE - 1) (l ++ stdin) = l := by
    rw [fgetsTake_long _ l stdin (fun b hb => (hl b hb).2) (by rw [hlen]; decide)]
    exact List.take_of_length_le (by rw [hlen]; decide)
  have hne : l ≠ [] := by
    intro h
    rw [h] at hlen
    simp at hlen
  simp only [readMessage, fgets, htake, hne, if_false, store, List.append_assoc,
    List.singleton_append, List.drop_left]
  exact ⟨sendPayload_strip l 0 _ hl (Or.inl rfl), trivial⟩

/-- A turn whose input holds a line shorter than `BUFFER_SIZE - 1` bytes: the
line, without its newline, is sent. -/
lemma turn_of_short_line (message l rest : List Nat) (hl : ∀ b ∈ l, b ≠ 0 ∧ b ≠ 10)
    (hlen : l.length < 1023) :
    sendPayload (readMessage message (l ++ 10 :: rest)).1 = l ∧
      (readMessage message (l ++ 10 :: rest)).2 = rest := by
  have htake : fgetsTake (BUFFER_SIZE - 1) (l ++ 10 :: rest) = l ++ [10] :=
    fgetsTake_short l _ rest (fun b hb => (hl b hb).2) hlen
  have hdrop : List.drop (l ++ [10]).length (l ++ 10 :: rest) = rest := by
    have : l ++ 10 :: rest = (l ++ [10]) ++ rest := by simp
    rw [this, List.drop_left]
  simp only [readMessage, fgets, htake, store, hdrop]
  simp only [List.append_eq_nil, List.cons_ne_nil, and_false, if_false, List.append_assoc,
    List.singleton_append, List.cons_append]
  exact ⟨sendPayload_strip l 10 _ hl (Or.inr rfl), trivial⟩

lemma strncmp_take : ∀ (n k : Nat) (l b : List Nat), n ≤ k →
    strncmp (l.take k) b n = strncmp l b n
  | 0, _, _, _, _ => by simp [strncmp]
  | n + 1, 0, _, _, h => by simp at h
  | n + 1, k + 1, [], b, _ => by simp
  | n + 1, k + 1, x :: l, b, h => by
    have ih := strncmp_take n k l b.tail (by simpa using h)
    simp [strncmp, ih]

lemma cstr_of_no_nul : ∀ l : List Nat, (∀ b ∈ l, b ≠ 0 ∧ b ≠ 10) → cstr l = l
  | [], _ => rfl
  | x :: l, hl => by
    have hx := hl x (by simp)
    have ih := cstr_of_no_nul l (fun b hb => hl b (by simp [hb]))
    simp [cstr_cons, hx.1, ih]

/-- The buffer of the peer after a `recv` that delivers the bytes `l`. -/
lemma cstr_recvBuffer_of_payload (l : List Nat) (hl : ∀ b ∈ l, b ≠ 0 ∧ b ≠ 10)
    (hlen : l.length ≤ 1023) :
    cstr (recvBuffer ⟨(l.length : Int), l⟩) = l := by
  unfold recvBuffer store
  simp only [Int.toNat_ofNat]
  rw [List.take_of_length_le (by simpa [BUFFER_SIZE] using hlen), cstr_set_length_append,
    cstr_of_no_nul l hl]

/-- One full turn of the client loop: a message that is not the sentinel is sent
and an answer that is not the sentinel is received. -/
lemma q3_client_loop_turn (sock : Int) (r : RecvResult) (rs : List RecvResult)
    (message stdin : List Nat)
    (hmsg : strncmp (sendPayload (readMessage message stdin).1) (bytes "exit") 4 ≠ 0)
    (hpos : 0 < r.ret) (hreply : strncmp (recvBuffer r) (bytes "exit") 4 ≠ 0) :
    (q3_client_loop sock (r :: rs) message stdin).1 =
      Event.stdout (bytes "You: ") :: Event.fgets ::
        Event.send sock (sendPayload (readMessage message stdin).1) ::
        Event.recv sock (BUFFER_SIZE - 1) (some r) ::
        Event.stdout (bytes "Server: " ++ cstr (recvBuffer r) ++ bytes "\n") ::
        (q3_client_loop sock rs (readMessage message stdin).1 (readMessage message stdin).2).1 := by
  rw [strncmp_sendPayload] at hmsg
  simp only [q3_client_loop, hmsg, not_le.2 hpos, hreply, if_false]

/-- The client loop always starts with the prompt, the read of a line and a `send`. -/
lemma q3_client_loop_head (sock : Int) : ∀ (recvs : List RecvResult) (message stdin : List Nat),
    ∃ post, (q3_client_loop sock recvs message stdin).1 =
      Event.stdout (bytes "You: ") :: Event.fgets ::
        Event.send sock (sendPayload (readMessage message stdin).1) :: post
  | [], message, stdin => by
    simp only [q3_client_loop]
    split_ifs <;> simp
  | r :: rs, message, stdin => by
    simp only [q3_client_loop]
    split_ifs <;> simp

/-- One step of the server loop up to its `send`: a message that is not the
sentinel is received, a line is read and sent. -/
lemma q3_server_loop_turn (new_socket : Int) (r : RecvResult) (rs : List RecvResult)
    (message stdin : List Nat) (hpos : 0 < r.ret)
    (hreceived : strncmp (recvBuffer r) (bytes "exit") 4 ≠ 0) :
    (q3_server_loop new_socket (r :: rs) message stdin).1 =
      Event.recv new_socket (BUFFER_SIZE - 1) (some r) ::
        Event.stdout (bytes "Client: " ++ cstr (recvBuffer r) ++ bytes "\n") ::
        Event.stdout (bytes "You: ") :: Event.fgets ::
        Event.send new_socket (sendPayload (readMessage message stdin).1) ::
        (if strncmp (sendPayload (readMessage message stdin).1) (bytes "exit") 4 = 0 then []
          else (q3_server_loop new_socket rs (readMessage message stdin).1
            (readMessage message stdin).2).1) := by
  rw [strncmp_sendPayload]
  simp only [q3_server_loop, not_le.2 hpos, hreceived, if_false]
  split_ifs <;> rfl

lemma q3_client_main_trace (i : Q3ClientInput) (h1 : 0 ≤ i.socket_ret)
    (h2 : 0 < i.inet_pton_ret) (h3 : 0 ≤ i.connect_ret) :
    ∃ tail, (q3_client_main i).trace =
      Event.stdout (bytes "Connected to server! Type 'exit' to end chat.\n") ::
        ((q3_client_loop i.socket_ret i.recvs i.message0 i.stdin).1 ++ tail) := by
  by_cases h4 : (q3_client_loop i.socket_ret i.recvs i.message0 i.stdin).2 = true
  · exact ⟨[Event.close i.socket_ret, Event.stdout (bytes "Chat ended.\n")],
      by simp [q3_client_main, not_lt.2 h1, not_le.2 h2, not_lt.2 h3, h4]⟩
  · exact ⟨[], by simp [q3_client_main, not_lt.2 h1, not_le.2 h2, not_lt.2 h3, h4]⟩

lemma q3_server_main_trace (i : Q3ServerInput) (h1 : 0 ≤ i.socket_ret)
    (h2 : 0 ≤ i.bind_ret) (h3 : 0 ≤ i.listen_ret) (h4 : 0 ≤ i.accept_ret) :
    ∃ tail, (q3_server_main i).trace =
      Event.stdout (bytes "Server listening on port 8080...\n") ::
        Event.stdout (bytes "Client connected! Type 'exit' to end chat.\n") ::
        ((q3_server_loop i.accept_ret i.recvs i.message0 i.stdin).1 ++ tail) := by
  by_cases h5 : (q3_server_loop i.accept_ret i.recvs i.message0 i.stdin).2 = true
  · exact ⟨[Event.close i.accept_ret, Event.close i.socket_ret,
        Event.stdout (bytes "Chat ended.\n")],
      by simp [q3_server_main, not_lt.2 h1, not_lt.2 h2, not_lt.2 h3, not_lt.2 h4, h5]⟩
  · exact ⟨[], by simp [q3_server_main, not_lt.2 h1, not_lt.2 h2, not_lt.2 h3, not_lt.2 h4,
      h5]⟩

/-- The two turns that a line of 2000 bytes takes: what is sent in each, and
the input that is left. -/
lemma two_turns_of_long_line (line rest : List Nat) (hlen : line.length = 2000)
    (hline : ∀ b ∈ line, b ≠ 0 ∧ b ≠ 10) (message : List Nat) :
    sendPayload (readMessage message (line ++ 10 :: rest)).1 = line.take 1023 ∧
      ∀ message2, sendPayload (readMessage message2
          (readMessage message (line ++ 10 :: rest)).2).1 = line.drop 1023 := by
  have hsplit : line ++ 10 :: rest = line.take 1023 ++ (line.drop 1023 ++ 10 :: rest) := by
    rw [← List.append_assoc, List.take_append_drop]
  have htake : ∀ b ∈ line.take 1023, b ≠ 0 ∧ b ≠ 10 :=
    fun b hb => hline b (List.mem_of_mem_take hb)
  have hdrop : ∀ b ∈ line.drop 1023, b ≠ 0 ∧ b ≠ 10 :=
    fun b hb => hline b (List.mem_of_mem_drop hb)
  have h1 := turn_of_long_input message (line.take 1023) (line.drop 1023 ++ 10 :: rest) htake
    (by simp [hlen])
  rw [← hsplit] at h1
  refine ⟨h1.1, fun message2 => ?_⟩
  rw [h1.2]
  exact (turn_of_short_line message2 (line.drop 1023) rest hdrop (by simp [hlen])).1

lemma q3_client_long_line (i : Q3ClientInput) (line rest : List Nat) (r : RecvResult)
    (rs : List RecvResult) (h1 : 0 ≤ i.socket_ret) (h2 : 0 < i.inet_pton_ret)
    (h3 : 0 ≤ i.connect_ret) (hlen : line.length = 2000)
    (hline : ∀ b ∈ line, b ≠ 0 ∧ b ≠ 10) (hnot : strncmp line (bytes "exit") 4 ≠ 0)
    (hstdin : i.stdin = line ++ 10 :: rest) (hrecvs : i.recvs = r :: rs) (hpos : 0 < r.ret)
    (hreply : strncmp (recvBuffer r) (bytes "exit") 4 ≠ 0) :
    ∃ post, (q3_client_main i).trace =
      Event.stdout (bytes "Connected to server! Type 'exit' to end chat.\n") ::
        Event.stdout (bytes "You: ") :: Event.fgets ::
        Event.send i.socket_ret (line.take 1023) ::
        Event.recv i.socket_ret 1023 (some r) ::
        Event.stdout (bytes "Server: " ++ cstr (recvBuffer r) ++ bytes "\n") ::
        Event.stdout (bytes "You: ") :: Event.fgets ::
        Event.send i.socket_ret (line.drop 1023) :: post := by
  obtain ⟨tail, ht⟩ := q3_client_main_trace i h1 h2 h3
  obtain ⟨hp1, hp2⟩ := two_turns_of_long_line line rest hlen hline i.message0
  have hmsg : strncmp (sendPayload (readMessage i.message0 (line ++ 10 :: rest)).1)
      (bytes "exit") 4 ≠ 0 := by
    rw [hp1, strncmp_take 4 1023 line _ (by decide)]
    exact hnot
  obtain ⟨post, hpost⟩ := q3_client_loop_head i.socket_ret rs
    (readMessage i.message0 (line ++ 10 :: rest)).1
    (readMessage i.message0 (line ++ 10 :: rest)).2
  refine ⟨post ++ tail, ?_⟩
  rw [ht, hstdin, hrecvs, q3_client_loop_turn i.socket_ret r rs _ _ hmsg hpos hreply, hpost,
    hp1, hp2]
  rfl

lemma q3_server_long_line (i : Q3ServerInput) (line rest : List Nat) (r1 r : RecvResult)
    (rs : List RecvResult) (h1 : 0 ≤ i.socket_ret) (h2 : 0 ≤ i.bind_ret)
    (h3 : 0 ≤ i.listen_ret) (h4 : 0 ≤ i.accept_ret) (hlen : line.length = 2000)
    (hline : ∀ b ∈ line, b ≠ 0 ∧ b ≠ 10) (hnot : strncmp line (bytes "exit") 4 ≠ 0)
    (hstdin : i.stdin = line ++ 10 :: rest) (hrecvs : i.recvs = r1 :: r :: rs)
    (hpos1 : 0 < r1.ret) (hfirst : strncmp (recvBuffer r1) (bytes "exit") 4 ≠ 0)
    (hpos : 0 < r.ret) (hreply : strncmp (recvBuffer r) (bytes "exit") 4 ≠ 0) :
    ∃ post, (q3_server_main i).trace =
      Event.stdout (bytes "Server listening on port 8080...\n") ::
        Event.stdout (bytes "Client connected! Type 'exit' to end chat.\n") ::
        Event.recv i.accept_ret 1023 (some r1) ::
        Event.stdout (bytes "Client: " ++ cstr (recvBuffer r1) ++ bytes "\n") ::
        Event.stdout (bytes "You: ") :: Event.fgets ::
        Event.send i.accept_ret (line.take 1023) ::
        Event.recv i.accept_ret 1023 (some r) ::
        Event.stdout (bytes "Client: " ++ cstr (recvBuffer r) ++ bytes "\n") ::
        Event.stdout (bytes "You: ") :: Event.fgets ::
        Event.send i.accept_ret (line.drop 1023) :: post := by
  obtain ⟨tail, ht⟩ := q3_server_main_trace i h1 h2 h3 h4
  obtain ⟨hp1, hp2⟩ := two_turns_of_long_line line rest hlen hline i.message0
  have hmsg : strncmp (line.take 1023) (bytes "exit") 4 ≠ 0 := by
    rw [strncmp_take 4 1023 line _ (by decide)]
    exact hnot
  refine Exists.intro ?w ?h
  case h =>
    rw [ht, hstdin, hrecvs, q3_server_loop_turn i.accept_ret r1 (r :: rs) _ _ hpos1 hfirst,
      hp1, if_neg hmsg, q3_server_loop_turn i.accept_ret r rs _ _ hpos hreply, hp2]
    simp only [List.cons_append]
    exact rfl

/-- Each terminator write of the client loop follows a `recv` of the loop that
asked for `BUFFER_SIZE - 1` bytes and returned the index as a positive count. -/
lemma q3_client_loop_writes_spec (sock : Int) :
    ∀ (recvs : List RecvResult) (message stdin : List Nat),
      ∀ w ∈ q3_client_loop_writes recvs message stdin,
        w.size = BUFFER_SIZE ∧ w.requested = BUFFER_SIZE - 1 ∧ 0 < w.index ∧
          ∃ e ∈ (q3_client_loop sock recvs message stdin).1,
            e.received = some (w.requested, w.index)
  | [], message, stdin => by
    simp [q3_client_loop_writes]
  | r :: rs, message, stdin => by
    have ih := q3_client_loop_writes_spec sock rs (readMessage message stdin).1
      (readMessage message stdin).2
    simp only [q3_client_loop_writes, q3_client_loop]
    split_ifs with h1 h2 h3
    · simp
    · simp
    · intro w hw
      simp only [List.mem_singleton] at hw
      subst hw
      exact ⟨rfl, rfl, not_le.1 h2, Event.recv sock (BUFFER_SIZE - 1) (some r), by simp, rfl⟩
    · intro w hw
      rcases List.mem_cons.1 hw with rfl | hw
      · exact ⟨rfl, rfl, not_le.1 h2, Event.recv sock (BUFFER_SIZE - 1) (some r), by simp,
          rfl⟩
      · obtain ⟨hs, hr, hp, e, he, hrec⟩ := ih w hw
        exact ⟨hs, hr, hp, e, by simp [he], hrec⟩

/-- Each terminator write of the server loop follows a `recv` of the loop that
asked for `BUFFER_SIZE - 1` bytes and returned the index as a positive count. -/
lemma q3_server_loop_writes_spec (new_socket : Int) :
    ∀ (recvs : List RecvResult) (message stdin : List Nat),
      ∀ w ∈ q3_server_loop_writes recvs message stdin,
        w.size = BUFFER_SIZE ∧ w.requested = BUFFER_SIZE - 1 ∧ 0 < w.index ∧
          ∃ e ∈ (q3_server_loop new_socket recvs message stdin).1,
            e.received = some (w.requested, w.index)
  | [], message, stdin => by
    simp [q3_server_loop_writes]
  | r :: rs, message, stdin => by
    have ih := q3_server_loop_writes_spec new_socket rs (readMessage message stdin).1
      (readMessage message stdin).2
    simp only [q3_server_loop_writes, q3_server_loop]
    split_ifs with h1 h2 h3
    · simp
    · intro w hw
      simp only [List.mem_singleton] at hw
      subst hw
      exact ⟨rfl, rfl, not_le.1 h1, Event.recv new_socket (BUFFER_SIZE - 1) (some r),
        by simp, rfl⟩
    · intro w hw
      simp only [List.mem_singleton] at hw
      subst hw
      exact ⟨rfl, rfl, not_le.1 h1, Event.recv new_socket (BUFFER_SIZE - 1) (some r),
        by simp, rfl⟩
    · intro w hw
      rcases List.mem_cons.1 hw with rfl | hw
      · exact ⟨rfl, rfl, not_le.1 h1, Event.recv new_socket (BUFFER_SIZE - 1) (some r),
          by simp, rfl⟩
      · obtain ⟨hs, hr, hp, e, he, hrec⟩ := ih w hw
        exact ⟨hs, hr, hp, e, by simp [he], hrec⟩

/-- Each terminator write of a program follows a receive of its run that asked for
one byte less than the size of the buffer and returned the index as its count. -/
lemma nulWrites_spec (prog : Program) (w : NulWrite) (hw : w ∈ prog.nulWrites) :
    w.size = BUFFER_SIZE ∧ w.requested = BUFFER_SIZE - 1 ∧ 0 ≤ w.index ∧
      (prog.isChat = true → 0 < w.index) ∧
      ∃ e ∈ prog.run.trace, e.received = some (w.requested, w.index) := by
  cases prog with
  | q1_server i =>
    simp only [Program.nulWrites] at hw
    split_ifs at hw with h1 h2
    · simp at hw
    · simp at hw
    · simp only [List.mem_singleton] at hw
      subst hw
      simp only [not_or, not_lt] at h1
      refine ⟨rfl, rfl, le_of_lt (not_le.1 h2), by simp [Program.isChat],
        Event.recv i.accept_ret (1024 - 1) (some i.recv_result), ?_, rfl⟩
      simp [Program.run, q1_server_main, not_lt.2 h1.1, not_lt.2 h1.2.1, not_lt.2 h1.2.2.1,
        not_lt.2 h1.2.2.2, h2]
  | q1_client i => simp [Program.nulWrites] at hw
  | q2_client i => simp [Program.nulWrites] at hw
  | q3_server i =>
    simp only [Program.nulWrites] at hw
    split_ifs at hw with h1
    · simp at hw
    · simp only [not_or, not_lt] at h1
      obtain ⟨hs, hr, hp, e, he, hrec⟩ :=
        q3_server_loop_writes_spec i.accept_ret i.recvs i.message0 i.stdin w hw
      obtain ⟨tail, ht⟩ := q3_server_main_trace i h1.1 h1.2.1 h1.2.2.1 h1.2.2.2
      refine ⟨hs, hr, le_of_lt hp, fun _ => hp, e, ?_, hrec⟩
      simp only [Program.run]
      rw [ht]
      simp [he]
  | q3_client i =>
    simp only [Program.nulWrites] at hw
    split_ifs at hw with h1
    · simp at hw
    · simp only [not_or, not_lt, not_le] at h1
      obtain ⟨hs, hr, hp, e, he, hrec⟩ :=
        q3_client_loop_writes_spec i.socket_ret i.recvs i.message0 i.stdin w hw
      obtain ⟨tail, ht⟩ := q3_client_main_trace i h1.1 h1.2.1 h1.2.2
      refine ⟨hs, hr, le_of_lt hp, fun _ => hp, e, ?_, hrec⟩
      simp only [Program.run]
      rw [ht]
      simp [he]
  | q4_server i =>
    simp only [Program.nulWrites] at hw
    split_ifs at hw with h1 h2
    · simp at hw
    · simp at hw
    · simp only [List.mem_singleton] at hw
      subst hw
      simp only [not_or, not_lt] at h1
      refine ⟨rfl, rfl, not_lt.1 h2, by simp [Program.isChat],
        Event.recvfrom i.socket_ret (BUFFER_SIZE - 1) i.recvfrom_result, ?_, rfl⟩
      simp [Program.run, q4_server_main, not_lt.2 h1.1, not_lt.2 h1.2, h2]
  | q4_client i =>
    simp only [Program.nulWrites] at hw
    split_ifs at hw with h1 h2
    · simp at hw
    · simp at hw
    · simp only [List.mem_singleton] at hw
      subst hw
      refine ⟨rfl, rfl, not_lt.1 h2, by simp [Program.isChat],
        Event.recvfrom i.socket_ret (BUFFER_SIZE - 1) i.recvfrom_result, ?_, rfl⟩
      simp [Program.run, q4_client_main, h1, h2]
  | q5_client i => simp [Program.nulWrites] at hw

/-- C11: when every `recv` / `recvfrom` of a run returns a negative value or a
count between 0 and the maximum that was requested, every write of the NUL
terminator after a receive (`buffer[valread]` in the chat client and chat
server, `buffer[n]` in the UDP client, `buffer[recv_len]` in the UDP server, and
also `buffer[received]` in `q1_server`) uses an index in the range 0..1023, inside
the buffer of 1024 bytes: the write is reached only with a count that is not
negative (positive in the chat programs), and the maximum requested is
`BUFFER_SIZE - 1`. -/
theorem terminator_write_inside_buffer (prog : Program)
    (hcontract : ∀ e ∈ prog.run.trace, e.countWithinRequest = true)
    (w : NulWrite) (hw : w ∈ prog.nulWrites) :
    w.size = 1024 ∧ w.requested = BUFFER_SIZE - 1 ∧ 0 ≤ w.index ∧ w.index ≤ 1023 ∧
      w.index < (w.size : Int) ∧
      (prog.isChat = true → 0 < w.index) := by
  obtain ⟨hs, hr, h0, hchat, e, he, hrec⟩ := nulWrites_spec prog w hw
  have hc := hcontract e he
  simp only [Event.countWithinRequest, hrec, decide_eq_true_eq, hr] at hc
  have hle : w.index ≤ 1023 := by
    have : ((BUFFER_SIZE - 1 : Nat) : Int) = 1023 := by decide
    rw [this] at hc
    exact hc
  have hsz : (w.size : Int) = 1024 := by
    rw [hs]
    decide
  refine ⟨by rw [hs]; rfl, hr, h0, hle, ?_, hchat⟩
  rw [hsz]
  omega

/-- Witness for `terminator_write_inside_buffer`: the chat server receives `hi`
(two bytes), answers `yo`, and the client closes; the terminator is written at
index 2. -/
theorem terminator_write_inside_buffer_witness :
    (∀ e ∈ (Program.q3_server
        ⟨3, 0, 0, 4, [], bytes "yo\n", [⟨2, bytes "hi"⟩, ⟨0, []⟩]⟩).run.trace,
      e.countWithinRequest = true) ∧
      (⟨1024, 1023, 2⟩ : NulWrite) ∈ (Program.q3_server
        ⟨3, 0, 0, 4, [], bytes "yo\n", [⟨2, bytes "hi"⟩, ⟨0, []⟩]⟩).nulWrites ∧
      (0 : Int) ≤ (NulWrite.mk 1024 1023 2).index ∧ (NulWrite.mk 1024 1023 2).index ≤ 1023 :=
  have h := terminator_write_inside_buffer
    (Program.q3_server ⟨3, 0, 0, 4, [], bytes "yo\n", [⟨2, bytes "hi"⟩, ⟨0, []⟩]⟩)
    (by decide) ⟨1024, 1023, 2⟩ (by decide)
  ⟨by decide, by decide, h.2.2.1, h.2.2.2.1⟩

end SocketExamples
